import Mathlib

/-!
# Neoway loader: document validator and line pipeline

A shallow embedding of `src/main.go`.

Go strings are byte sequences (`GoString`).  `for _, r := range s`, the
`regexp` package and `strings.Fields` read a string rune by rune, decoding
UTF-8 and yielding U+FFFD for every byte that does not start a valid
encoding; `len` and slicing work on bytes.  Go's `int` is taken to be the
64-bit two's-complement integer of the usual targets.
-/

namespace Neoway

/-! ## Strings, runes and UTF-8 -/

/-- A Go `string`: an immutable sequence of bytes. -/
abbrev GoString := List UInt8

/-- The replacement rune `utf8.RuneError`.  A Go `rune` as produced by
decoding is a code point, a natural number. -/
def runeError : Nat := 0xFFFD

/-- Continuation byte `10xxxxxx`. -/
def ehContinuacao (b : UInt8) : Bool := 0x80 ≤ b.toNat && b.toNat ≤ 0xBF

/-- Decoding of the first rune of a string (`utf8.DecodeRuneInString`): the
rune and the number of bytes it takes.  Overlong forms, surrogates and values
above U+10FFFF are invalid and decode as `(runeError, 1)`. -/
def decodeRune : GoString → Nat × Nat
  | [] => (runeError, 0)
  | b0 :: resto =>
    if b0.toNat < 0x80 then (b0.toNat, 1)
    else if b0.toNat < 0xC2 then (runeError, 1)
    else if b0.toNat < 0xE0 then
      match resto with
      | b1 :: _ =>
        if ehContinuacao b1 then ((b0.toNat % 32) * 64 + b1.toNat % 64, 2)
        else (runeError, 1)
      | [] => (runeError, 1)
    else if b0.toNat < 0xF0 then
      match resto with
      | b1 :: b2 :: _ =>
        let lo := if b0.toNat = 0xE0 then 0xA0 else 0x80
        let hi := if b0.toNat = 0xED then 0x9F else 0xBF
        if lo ≤ b1.toNat && b1.toNat ≤ hi && ehContinuacao b2 then
          ((b0.toNat % 16) * 4096 + (b1.toNat % 64) * 64 + b2.toNat % 64, 3)
        else (runeError, 1)
      | _ => (runeError, 1)
    else if b0.toNat < 0xF5 then
      match resto with
      | b1 :: b2 :: b3 :: _ =>
        let lo := if b0.toNat = 0xF0 then 0x90 else 0x80
        let hi := if b0.toNat = 0xF4 then 0x8F else 0xBF
        if lo ≤ b1.toNat && b1.toNat ≤ hi && ehContinuacao b2 && ehContinuacao b3 then
          ((b0.toNat % 8) * 262144 + (b1.toNat % 64) * 4096 + (b2.toNat % 64) * 64
            + b3.toNat % 64, 4)
        else (runeError, 1)
      | _ => (runeError, 1)
    else (runeError, 1)

/-- The runes of a string with the bytes each one was decoded from, in order;
`pular` is the number of bytes still belonging to the rune decoded last. -/
def pedacosAux : Nat → GoString → List (Nat × GoString)
  | _, [] => []
  | pular + 1, _ :: bs => pedacosAux pular bs
  | 0, b :: bs =>
    let rw := decodeRune (b :: bs)
    (rw.1, (b :: bs).take rw.2) :: pedacosAux (rw.2 - 1) bs

/-- The decoded runes of a string, each with its bytes. -/
def pedacos (s : GoString) : List (Nat × GoString) := pedacosAux 0 s

/-- The runes `for _, r := range s` yields. -/
def runes (s : GoString) : List Nat := (pedacos s).map Prod.fst

/-- UTF-8 encoding of a rune (`utf8.AppendRune`, behind `WriteRune`):
surrogates and values above U+10FFFF are written as U+FFFD. -/
def encodeRune (r : Nat) : GoString :=
  if r < 0x80 then [UInt8.ofNat r]
  else if r < 0x800 then [UInt8.ofNat (0xC0 + r / 64), UInt8.ofNat (0x80 + r % 64)]
  else if (0xD800 ≤ r ∧ r ≤ 0xDFFF) ∨ 0x10FFFF < r then [0xEF, 0xBF, 0xBD]
  else if r < 0x10000 then
    [UInt8.ofNat (0xE0 + r / 4096), UInt8.ofNat (0x80 + r / 64 % 64), UInt8.ofNat (0x80 + r % 64)]
  else
    [UInt8.ofNat (0xF0 + r / 262144), UInt8.ofNat (0x80 + r / 4096 % 64),
      UInt8.ofNat (0x80 + r / 64 % 64), UInt8.ofNat (0x80 + r % 64)]

/-- A Go string literal: the UTF-8 bytes of the text. -/
def lit (s : String) : GoString := s.data.flatMap fun c => encodeRune c.toNat

/-- The ranges of Unicode category Nd (decimal digit), table `unicode.Digit`
of Go's package `unicode` (Unicode 15.0.0). -/
def tabelaNd : List (Nat × Nat) :=
  [(0x30, 0x39), (0x660, 0x669), (0x6F0, 0x6F9), (0x7C0, 0x7C9), (0x966, 0x96F),
   (0x9E6, 0x9EF), (0xA66, 0xA6F), (0xAE6, 0xAEF), (0xB66, 0xB6F), (0xBE6, 0xBEF),
   (0xC66, 0xC6F), (0xCE6, 0xCEF), (0xD66, 0xD6F), (0xDE6, 0xDEF), (0xE50, 0xE59),
   (0xED0, 0xED9), (0xF20, 0xF29), (0x1040, 0x1049), (0x1090, 0x1099), (0x17E0, 0x17E9),
   (0x1810, 0x1819), (0x1946, 0x194F), (0x19D0, 0x19D9), (0x1A80, 0x1A89), (0x1A90, 0x1A99),
   (0x1B50, 0x1B59), (0x1BB0, 0x1BB9), (0x1C40, 0x1C49), (0x1C50, 0x1C59), (0xA620, 0xA629),
   (0xA8D0, 0xA8D9), (0xA900, 0xA909), (0xA9D0, 0xA9D9), (0xA9F0, 0xA9F9), (0xAA50, 0xAA59),
   (0xABF0, 0xABF9), (0xFF10, 0xFF19), (0x104A0, 0x104A9), (0x10D30, 0x10D39),
   (0x11066, 0x1106F), (0x110F0, 0x110F9), (0x11136, 0x1113F), (0x111D0, 0x111D9),
   (0x112F0, 0x112F9), (0x11450, 0x11459), (0x114D0, 0x114D9), (0x11650, 0x11659),
   (0x116C0, 0x116C9), (0x11730, 0x11739), (0x118E0, 0x118E9), (0x11950, 0x11959),
   (0x11C50, 0x11C59), (0x11D50, 0x11D59), (0x11DA0, 0x11DA9), (0x11F50, 0x11F59),
   (0x16A60, 0x16A69), (0x16AC0, 0x16AC9), (0x16B50, 0x16B59), (0x1D7CE, 0x1D7FF),
   (0x1E140, 0x1E149), (0x1E2F0, 0x1E2F9), (0x1E4F0, 0x1E4F9), (0x1E950, 0x1E959),
   (0x1FBF0, 0x1FBF9)]

/-- The predicate `unicode.IsDigit`: Latin-1 runes are tested against
`'0'..'9'`, the others against the Nd table. -/
def unicodeIsDigit (r : Nat) : Bool :=
  if r ≤ 0xFF then 0x30 ≤ r && r ≤ 0x39
  else tabelaNd.any fun p => p.1 ≤ r && r ≤ p.2

/-- The predicate `unicode.IsSpace`: tab, line feed, vertical tab, form feed,
carriage return, space, U+0085, U+00A0 and the other White_Space runes. -/
def unicodeIsSpace (r : Nat) : Bool :=
  (0x09 ≤ r && r ≤ 0x0D) || r = 0x20 || r = 0x85 || r = 0xA0 || r = 0x1680 ||
  (0x2000 ≤ r && r ≤ 0x200A) || r = 0x2028 || r = 0x2029 || r = 0x202F || r = 0x205F ||
  r = 0x3000

/-! ## Machine integers -/

/-- Wrap-around of Go's 64-bit `int`. -/
def wrapInt (x : Int) : Int :=
  (x + 9223372036854775808) % 18446744073709551616 - 9223372036854775808

/-- Decimal rendering of an `int` (`strconv.Itoa`). -/
def itoa (n : Int) : GoString :=
  let digitos := (Nat.toDigits 10 n.natAbs).map fun c => UInt8.ofNat c.toNat
  if n < 0 then 0x2D :: digitos else digitos

/-! ## Regular expressions (the fragment of RE2 used by the patterns) -/

/-- Syntax of the patterns: the empty pattern, a character class given as
a range of runes, concatenation and alternation. -/
inductive Regexp where
  | vazio : Regexp
  | faixa (lo hi : Nat) : Regexp
  | seq (a b : Regexp) : Regexp
  | alt (a b : Regexp) : Regexp

namespace Regexp

/-- The class of one literal character. -/
def car (c : Char) : Regexp := faixa c.toNat c.toNat

/-- The class `\d`, which in RE2 is `[0-9]`. -/
def d : Regexp := faixa 0x30 0x39

/-- The pattern `x?`. -/
def opt (a : Regexp) : Regexp := alt a vazio

/-- The pattern `x{n}`. -/
def rep : Nat → Regexp → Regexp
  | 0, _ => vazio
  | n + 1, a => seq a (rep n a)

/-- All the ways a pattern matches a prefix of the runes: the remainders. -/
def restos : Regexp → List Nat → List (List Nat)
  | vazio, s => [s]
  | faixa _ _, [] => []
  | faixa lo hi, c :: s => if lo ≤ c ∧ c ≤ hi then [s] else []
  | seq a b, s => (restos a s).flatMap (restos b)
  | alt a b, s => restos a s ++ restos b s

/-- The method `MatchString` for a pattern anchored by `^` and `$`: the
whole text matches. -/
def matchString (re : Regexp) (s : GoString) : Bool :=
  (restos re (runes s)).any List.isEmpty

end Regexp

open Regexp in
/-- The pattern `^\d{3}\.?\d{3}\.?\d{3}-?\d{2}$`. -/
def CPFRegexp : Regexp :=
  seq (rep 3 d) (seq (opt (car '.')) (seq (rep 3 d) (seq (opt (car '.'))
    (seq (rep 3 d) (seq (opt (car '-')) (rep 2 d))))))

open Regexp in
/-- The pattern
`^\d{2}\.?\d{3}\.?\d{3}\/?(:?\d{3}[1-9]|\d{2}[1-9]\d|\d[1-9]\d{2}|[1-9]\d{3})-?\d{2}$`;
its group opens with `:?`, an optional colon. -/
def CNPJRegexp : Regexp :=
  seq (rep 2 d) (seq (opt (car '.')) (seq (rep 3 d) (seq (opt (car '.')) (seq (rep 3 d)
    (seq (opt (car '/'))
      (seq (alt (seq (opt (car ':')) (seq (rep 3 d) (faixa 0x31 0x39)))
              (alt (seq (rep 2 d) (seq (faixa 0x31 0x39) d))
                (alt (seq d (seq (faixa 0x31 0x39) (rep 2 d)))
                  (seq (faixa 0x31 0x39) (rep 3 d)))))
        (seq (opt (car '-')) (rep 2 d))))))))

/-! ## The validator -/

/-- Ways the program stops abnormally. -/
inductive Falha where
  /-- Run-time panic: slice bounds out of range. -/
  | sliceForaDosLimites : Falha
  /-- Run-time panic: index out of range. -/
  | indiceForaDosLimites : Falha
  /-- `registrarErro` on a `strconv.ParseFloat` error: `log.Fatal`. -/
  | erroParseFloat : Falha
  /-- `registrarErro` on a `db.Exec` error: `log.Fatal`. -/
  | erroExec : Falha
  deriving DecidableEq, Repr

deriving instance DecidableEq for Except

/-- The normalizer `limparCaracteresCpfCnpj`: the value left in `*aDocumento`,
the runes for which `unicode.IsDigit` holds, written in order. -/
def limparCaracteresCpfCnpj (aDocumento : GoString) : GoString :=
  ((runes aDocumento).filter unicodeIsDigit).flatMap encodeRune

/-- The conversion `toInt`: `int(aValue - '0')`. -/
def toInt (aValue : Nat) : Int := (aValue : Int) - 0x30

/-- The loop of `calcularDigitoVerificador`: the final `soma`. -/
def somaPonderada : List Nat → Int → Int → Int
  | [], soma, _ => soma
  | digito :: resto, soma, aPosicao =>
    let soma := wrapInt (soma + wrapInt (toInt digito * aPosicao))
    let aPosicao := wrapInt (aPosicao - 1)
    somaPonderada resto soma (if aPosicao < 2 then 9 else aPosicao)

/-- The checksum primitive `calcularDigitoVerificador`. -/
def calcularDigitoVerificador (aDocumento : GoString) (aPosicao : Int) : GoString :=
  let soma := Int.tmod (somaPonderada (runes aDocumento) 0 aPosicao) 11
  if soma < 2 then lit "0" else itoa (11 - soma)

/-- The shared routine `ehCpfOuCnpj`. -/
def ehCpfOuCnpj (aDocumento : GoString) (aRegra : Regexp) (aTamanho : Nat) (aPosicao : Int) :
    Except Falha Bool :=
  if !aRegra.matchString aDocumento then .ok false
  else
    let aDocumento := limparCaracteresCpfCnpj aDocumento
    if aDocumento.length < aTamanho then .error .sliceForaDosLimites
    else
      let documento := aDocumento.take aTamanho
      let digitoVerificador := calcularDigitoVerificador documento (wrapInt (aPosicao + 1))
      .ok (aDocumento == documento ++ digitoVerificador)

/-- The validator `validarCPF`: `TAMANHO = 11`, `POSICAO = 10`. -/
def validarCPF (aCpf : GoString) : Except Falha Bool := ehCpfOuCnpj aCpf CPFRegexp 11 10

/-- The validator `validarCNPJ`: `TAMANHO = 14`, `POSICAO = 5`. -/
def validarCNPJ (aCnpj : GoString) : Except Falha Bool := ehCpfOuCnpj aCnpj CNPJRegexp 14 5

/-! ## The line pipeline of `main` -/

/-- The function `strings.Fields` over the decoded runes: `atual` is the
field being read (empty when none is). -/
def fieldsAux : List (Nat × GoString) → GoString → List GoString
  | [], atual => if atual.isEmpty then [] else [atual]
  | (r, bs) :: resto, atual =>
    if unicodeIsSpace r then
      if atual.isEmpty then fieldsAux resto [] else atual :: fieldsAux resto []
    else fieldsAux resto (atual ++ bs)

/-- The function `strings.Fields`: the maximal runs of runes that are not
`unicode.IsSpace`. -/
def fields (s : GoString) : List GoString := fieldsAux (pedacos s) []

/-- The function `strings.Join` with a one-byte separator. -/
def join : List GoString → UInt8 → GoString
  | [], _ => []
  | [a], _ => a
  | a :: b :: resto, sep => a ++ sep :: join (b :: resto) sep

/-- The function `strings.Split` with a one-byte separator: always at least
one piece. -/
def split : GoString → UInt8 → List GoString
  | [], _ => [[]]
  | b :: bs, sep =>
    if b = sep then [] :: split bs sep
    else
      match split bs sep with
      | [] => [[b]]
      | p :: ps => (b :: p) :: ps

/-- The function `strings.ReplaceAll` with one-byte old and new strings. -/
def replaceAll (s : GoString) (velho novo : UInt8) : GoString :=
  s.map fun b => if b = velho then novo else b

/-- The eight variables assigned from `registro[0]` .. `registro[7]`. -/
structure Campos where
  codCpfPessoa : GoString
  flgPrivate : GoString
  flgIncompleto : GoString
  datUltimaCompra : GoString
  vlrTicketMedio : GoString
  vlrTicketUltimaCompra : GoString
  codCnpjLojaMaisFrequente : GoString
  codCnpjLojaUltimaCompra : GoString
  deriving DecidableEq, Repr

/-- The eight record values passed to `db.Exec` (the ninth argument is the
constant `"NOW()"`); `F` stands for `float64`. -/
structure Registro (F : Type) where
  codCpfPessoa : GoString
  flgPrivate : GoString
  flgIncompleto : GoString
  datUltimaCompra : GoString
  vlrTicketMedioInsert : F
  vlrTicketUltimaCompraInsert : F
  codCnpjLojaMaisFrequente : GoString
  codCnpjLojaUltimaCompra : GoString
  deriving DecidableEq, Repr

/-- What `main` takes from outside this file: the library function
`strconv.ParseFloat` and the database behind `db`. -/
structure Ambiente (F : Type) where
  /-- The `float64` value `0`. -/
  zero : F
  /-- The call `strconv.ParseFloat(s, BITSIZE)`: `none` when it returns an error. -/
  parseFloat : GoString → Option F
  /-- Whether `db.Exec` of the insert returns no error, given the rows this
  run inserted before. -/
  exec : List (Registro F) → Registro F → Bool
  /-- Whether `RowsAffected` of that insert returns no error. -/
  rowsAffected : Registro F → Bool

/-- The statement `dadosLinha = strings.Join(strings.Fields(linhas.Text()), ";")`. -/
def dadosLinha (texto : GoString) : GoString := join (fields texto) 0x3B

/-- Lines 172-176: split on `;` and take `registro[0]` .. `registro[7]`; an
index past the end of `registro` is a run-time panic. -/
def campos (texto : GoString) : Except Falha Campos :=
  match split (dadosLinha texto) 0x3B with
  | c0 :: c1 :: c2 :: c3 :: c4 :: c5 :: c6 :: c7 :: _ => .ok ⟨c0, c1, c2, c3, c4, c5, c6, c7⟩
  | _ => .error .indiceForaDosLimites

/-- A numeric field, lines 186-193 and 196-203: `,` becomes `.`, `"NULL"`
gives zero without a parse, a parse error is fatal. -/
def valorNumerico {F : Type} (amb : Ambiente F) (campo : GoString) : Except Falha F :=
  let campo := replaceAll campo 0x2C 0x2E
  if campo ≠ lit "NULL" then
    match amb.parseFloat campo with
    | some convert => .ok convert
    | none => .error .erroParseFloat
  else .ok amb.zero

/-- A store document, lines 205-213: normalized unless it is `"NULL"`. -/
def documentoLoja (campo : GoString) : GoString :=
  if campo ≠ lit "NULL" then limparCaracteresCpfCnpj campo else campo

/-- Lines 178-213: the field normalizations, in the order of the source. -/
def normalizar {F : Type} (amb : Ambiente F) (c : Campos) : Except Falha (Registro F) :=
  let codCpfPessoa := limparCaracteresCpfCnpj c.codCpfPessoa
  let datUltimaCompra :=
    if c.datUltimaCompra = lit "NULL" then lit "1900-01-01" else c.datUltimaCompra
  match valorNumerico amb c.vlrTicketMedio with
  | .error f => .error f
  | .ok vlrTicketMedioInsert =>
    match valorNumerico amb c.vlrTicketUltimaCompra with
    | .error f => .error f
    | .ok vlrTicketUltimaCompraInsert =>
      .ok ⟨codCpfPessoa, c.flgPrivate, c.flgIncompleto, datUltimaCompra, vlrTicketMedioInsert,
        vlrTicketUltimaCompraInsert, documentoLoja c.codCnpjLojaMaisFrequente,
        documentoLoja c.codCnpjLojaUltimaCompra⟩

/-- The record-parse steps of one data line, lines 166-213. -/
def analisar {F : Type} (amb : Ambiente F) (texto : GoString) : Except Falha (Registro F) :=
  match campos texto with
  | .error f => .error f
  | .ok c => normalizar amb c

/-- What the loop has done with the database so far: the rows passed to
`db.Exec`, and those for which it returned no error. -/
structure Estado (F : Type) where
  enviados : List (Registro F)
  inseridos : List (Registro F)

/-- The body of the loop for a data line (`contador > 0`): the state after
this line and the fatal error, if any. -/
def tratarLinha {F : Type} (amb : Ambiente F) (est : Estado F) (texto : GoString) :
    Estado F × Option Falha :=
  match analisar amb texto with
  | .error f => (est, some f)
  | .ok r =>
    if r.codCpfPessoa.length = 11 then
      if amb.exec est.inseridos r then
        if amb.rowsAffected r then (⟨est.enviados ++ [r], est.inseridos ++ [r]⟩, none)
        else (⟨est.enviados ++ [r], est.inseridos ++ [r]⟩, some .erroExec)
      else (⟨est.enviados ++ [r], est.inseridos⟩, some .erroExec)
    else (est, none)

/-- How a run ends. -/
inductive Desfecho where
  /-- The message "Concluído com sucesso". -/
  | concluido : Desfecho
  /-- The message "Dados já inseridos". -/
  | dadosJaInseridos : Desfecho
  /-- The process stopped at a panic or at `log.Fatal`. -/
  | abortado (f : Falha) : Desfecho
  deriving DecidableEq, Repr

/-- The outcome of a run: the rows passed to `db.Exec` and the rows inserted,
in order, the number of source lines taken from the scanner, and how the run
ended. -/
structure Resultado (F : Type) where
  enviados : List (Registro F)
  inseridos : List (Registro F)
  lidas : Nat
  desfecho : Desfecho
  deriving DecidableEq

/-- The loop `for linhas.Scan()` over the lines the scanner delivers;
`contador` counts the lines already seen (a file has far fewer than 2^63
lines, so the counter is a natural number). -/
def percorrer {F : Type} (amb : Ambiente F) :
    List GoString → Nat → Estado F → Nat → Resultado F
  | [], _, est, lidas => ⟨est.enviados, est.inseridos, lidas, .concluido⟩
  | texto :: resto, contador, est, lidas =>
    if contador > 0 then
      match tratarLinha amb est texto with
      | (est, some f) => ⟨est.enviados, est.inseridos, lidas + 1, .abortado f⟩
      | (est, none) => percorrer amb resto (contador + 1) est (lidas + 1)
    else percorrer amb resto (contador + 1) est (lidas + 1)

/-- The program `main` from the `COUNT` query on: `totalRegistros` is the
row count read from the destination and `linhas` the lines of the source. -/
def main {F : Type} (amb : Ambiente F) (totalRegistros : Int) (linhas : List GoString) :
    Resultado F :=
  if totalRegistros = 0 then percorrer amb linhas 0 ⟨[], []⟩ 0
  else ⟨[], [], 0, .dadosJaInseridos⟩

/-- A sample environment for the concrete runs below: `ParseFloat` answers as
`strconv` does on the tokens those runs use (`"12.5"` is 12.5, `"S"` is an
error), and the database accepts every insert. -/
def ambExemplo : Ambiente ℚ where
  zero := 0
  parseFloat := fun s => if s = lit "12.5" then some (25 / 2) else none
  exec := fun _ _ => true
  rowsAffected := fun _ => true

/-- The header line used in the concrete runs below. -/
def cabecalhoExemplo : GoString :=
  lit "CPF PRIVATE INCOMPLETO DATA_ULTIMA_COMPRA TICKET_MEDIO TICKET_ULTIMA LOJA_FREQUENTE LOJA_ULTIMA"

/-- The records of the lines after the header that parse and pass the
acceptance gate, in order. -/
def aceitas {F : Type} (amb : Ambiente F) (linhas : List GoString) : List (Registro F) :=
  linhas.tail.filterMap fun texto =>
    match analisar amb texto with
    | .ok r => if r.codCpfPessoa.length = 11 then some r else none
    | .error _ => none

/-- The number of digits of a string: its runes for which `unicode.IsDigit`
holds. -/
def numDigitos (s : GoString) : Nat := ((runes s).filter unicodeIsDigit).length

/-! ## Auxiliary notions for the proofs -/

/-- A rune that UTF-8 can encode: not a surrogate, at most U+10FFFF. -/
def runeValido (r : Nat) : Prop := r < 0xD800 ∨ (0xE000 ≤ r ∧ r ≤ 0x10FFFF)

instance : DecidablePred runeValido := fun r => by unfold runeValido; infer_instance

namespace Regexp

/-- Every class of the pattern lies within ASCII. -/
def soAscii : Regexp → Bool
  | vazio => true
  | faixa _ hi => hi < 0x80
  | seq a b => soAscii a && soAscii b
  | alt a b => soAscii a && soAscii b

/-- A lower bound on the digits of a matched text. -/
def minDigitos : Regexp → Nat
  | vazio => 0
  | faixa lo hi => if 0x30 ≤ lo ∧ hi ≤ 0x39 then 1 else 0
  | seq a b => minDigitos a + minDigitos b
  | alt a b => min (minDigitos a) (minDigitos b)

/-- An upper bound on the digits of a matched text. -/
def maxDigitos : Regexp → Nat
  | vazio => 0
  | faixa lo hi => if hi < 0x30 ∨ 0x39 < lo then 0 else 1
  | seq a b => maxDigitos a + maxDigitos b
  | alt a b => max (maxDigitos a) (maxDigitos b)

end Regexp

/-! ## The checksum in the words of the specification -/

/-- The next weight as the specification words it: one less, reset to 9
whenever that value falls below 2. -/
def proximoPeso (w : Int) : Int := if w - 1 < 2 then 9 else w - 1

/-- The sum of the specification, over the integers: each digit value times
its weight. -/
def somaExata : List Nat → Int → Int
  | [], _ => 0
  | dig :: resto, w => (dig : Int) * w + somaExata resto (proximoPeso w)

/-- The digit values of a body of ASCII digits. -/
def valores (body : GoString) : List Nat := body.map fun b => b.toNat - 0x30

/-- The check digit of the specification: with `r` the sum modulo 11, "0"
when `r < 2` and the decimal string of `11 - r` otherwise. -/
def digitoEsperado (body : GoString) (w0 : Int) : GoString :=
  let r := somaExata (valores body) w0 % 11
  if r < 2 then lit "0" else itoa (11 - r)

/-! ## UTF-8 and byte lemmas -/

theorem toNat_lt_256 (b : UInt8) : b.toNat < 256 := UInt8.toNat_lt_size b

theorem toNat_ofNat_lt {n : Nat} (h : n < 256) : (UInt8.ofNat n).toNat = n :=
  UInt8.toNat_ofNat_of_lt h

theorem ofNat_toNat (b : UInt8) : UInt8.ofNat b.toNat = b := by
  apply UInt8.eq_of_toBitVec_eq
  apply BitVec.eq_of_toNat_eq
  exact toNat_ofNat_lt (toNat_lt_256 b)

theorem toNat_inj {a b : UInt8} (h : a.toNat = b.toNat) : a = b := by
  rw [← ofNat_toNat a, ← ofNat_toNat b, h]

/-- A byte outside ASCII never starts the encoding of an ASCII rune. -/
theorem decodeRune_ge (b : UInt8) (bs : GoString) (h : 0x80 ≤ b.toNat) :
    0x80 ≤ (decodeRune (b :: bs)).1 := by
  have hb := toNat_lt_256 b
  rcases bs with _ | ⟨b1, _ | ⟨b2, _ | ⟨b3, t⟩⟩⟩ <;>
    simp only [decodeRune, runeError] <;> split_ifs <;>
    (try simp only [Bool.and_eq_true, decide_eq_true_eq, ehContinuacao] at *) <;> omega

theorem pedacosAux_ascii (b : UInt8) (bs : GoString) (h : b.toNat < 0x80) :
    pedacosAux 0 (b :: bs) = (b.toNat, [b]) :: pedacosAux 0 bs := by
  simp [pedacosAux, decodeRune, h]

/-- A string all of whose runes are ASCII is read byte by byte. -/
theorem pedacos_of_runes_ascii (s : GoString) (h : ∀ r ∈ runes s, r < 0x80) :
    pedacos s = s.map fun b => (b.toNat, [b]) := by
  induction s with
  | nil => rfl
  | cons b bs ih =>
    by_cases hb : b.toNat < 0x80
    · have h1 : pedacos (b :: bs) = (b.toNat, [b]) :: pedacos bs := pedacosAux_ascii b bs hb
      rw [h1, List.map_cons, ih]
      intro r hr
      apply h
      simp only [runes, h1, List.map_cons, List.mem_cons]
      exact Or.inr hr
    · exfalso
      have h2 := decodeRune_ge b bs (by omega)
      have h3 := h (decodeRune (b :: bs)).1 (by simp [runes, pedacos, pedacosAux])
      omega

theorem runes_of_runes_ascii (s : GoString) (h : ∀ r ∈ runes s, r < 0x80) :
    runes s = s.map UInt8.toNat := by
  simp [runes, pedacos_of_runes_ascii s h]

theorem decodeRune_dois (b0 b1 : UInt8) (resto : GoString)
    (h0 : 0xC2 ≤ b0.toNat ∧ b0.toNat < 0xE0) (h1 : 0x80 ≤ b1.toNat ∧ b1.toNat ≤ 0xBF) :
    decodeRune (b0 :: b1 :: resto) = ((b0.toNat % 32) * 64 + b1.toNat % 64, 2) := by
  simp only [decodeRune]
  rw [if_neg (by omega), if_neg (by omega), if_pos (by omega)]
  simp [ehContinuacao, h1]

theorem decodeRune_tres (b0 b1 b2 : UInt8) (resto : GoString)
    (h0 : 0xE0 ≤ b0.toNat ∧ b0.toNat < 0xF0)
    (h1 : 0x80 ≤ b1.toNat ∧ b1.toNat ≤ 0xBF)
    (hlo : b0.toNat = 0xE0 → 0xA0 ≤ b1.toNat) (hhi : b0.toNat = 0xED → b1.toNat ≤ 0x9F)
    (h2 : 0x80 ≤ b2.toNat ∧ b2.toNat ≤ 0xBF) :
    decodeRune (b0 :: b1 :: b2 :: resto) =
      ((b0.toNat % 16) * 4096 + (b1.toNat % 64) * 64 + b2.toNat % 64, 3) := by
  simp only [decodeRune]
  rw [if_neg (by omega), if_neg (by omega), if_neg (by omega), if_pos (by omega)]
  have c : (decide ((if b0.toNat = 0xE0 then 0xA0 else 0x80) ≤ b1.toNat) &&
      decide (b1.toNat ≤ if b0.toNat = 0xED then 0x9F else 0xBF) && ehContinuacao b2) = true := by
    simp only [ehContinuacao, Bool.and_eq_true, decide_eq_true_eq]
    split_ifs <;> omega
  rw [if_pos c]

theorem decodeRune_quatro (b0 b1 b2 b3 : UInt8) (resto : GoString)
    (h0 : 0xF0 ≤ b0.toNat ∧ b0.toNat < 0xF5)
    (h1 : 0x80 ≤ b1.toNat ∧ b1.toNat ≤ 0xBF)
    (hlo : b0.toNat = 0xF0 → 0x90 ≤ b1.toNat) (hhi : b0.toNat = 0xF4 → b1.toNat ≤ 0x8F)
    (h2 : 0x80 ≤ b2.toNat ∧ b2.toNat ≤ 0xBF) (h3 : 0x80 ≤ b3.toNat ∧ b3.toNat ≤ 0xBF) :
    decodeRune (b0 :: b1 :: b2 :: b3 :: resto) =
      ((b0.toNat % 8) * 262144 + (b1.toNat % 64) * 4096 + (b2.toNat % 64) * 64
        + b3.toNat % 64, 4) := by
  simp only [decodeRune]
  rw [if_neg (by omega), if_neg (by omega), if_neg (by omega), if_neg (by omega),
    if_pos (by omega)]
  have c : (decide ((if b0.toNat = 0xF0 then 0x90 else 0x80) ≤ b1.toNat) &&
      decide (b1.toNat ≤ if b0.toNat = 0xF4 then 0x8F else 0xBF) && ehContinuacao b2 &&
      ehContinuacao b3) = true := by
    simp only [ehContinuacao, Bool.and_eq_true, decide_eq_true_eq]
    split_ifs <;> omega
  rw [if_pos c]

theorem pedacosAux_zero_cons (b : UInt8) (bs : GoString) :
    pedacosAux 0 (b :: bs) = ((decodeRune (b :: bs)).1, (b :: bs).take (decodeRune (b :: bs)).2)
      :: pedacosAux ((decodeRune (b :: bs)).2 - 1) bs := rfl

theorem pedacosAux_succ_cons (n : Nat) (b : UInt8) (bs : GoString) :
    pedacosAux (n + 1) (b :: bs) = pedacosAux n bs := rfl

/-- Decoding what `encodeRune` wrote gives the rune back. -/
theorem pedacosAux_encodeRune (r : Nat) (hv : runeValido r) (resto : GoString) :
    pedacosAux 0 (encodeRune r ++ resto) = (r, encodeRune r) :: pedacosAux 0 resto := by
  unfold runeValido at hv
  by_cases h1 : r < 0x80
  · have e : encodeRune r = [UInt8.ofNat r] := by simp [encodeRune, h1]
    have t : (UInt8.ofNat r).toNat = r := toNat_ofNat_lt (by omega)
    rw [e]
    simp [pedacosAux, decodeRune, t, h1]
  by_cases h2 : r < 0x800
  · have e : encodeRune r = [UInt8.ofNat (0xC0 + r / 64), UInt8.ofNat (0x80 + r % 64)] := by
      simp [encodeRune, h1, h2]
    have t0 : (UInt8.ofNat (0xC0 + r / 64)).toNat = 0xC0 + r / 64 := toNat_ofNat_lt (by omega)
    have t1 : (UInt8.ofNat (0x80 + r % 64)).toNat = 0x80 + r % 64 := toNat_ofNat_lt (by omega)
    have hd := decodeRune_dois _ _ resto (by rw [t0]; omega) (by rw [t1]; omega)
    rw [t0, t1] at hd
    rw [e]
    simp only [List.cons_append, List.nil_append]
    rw [pedacosAux_zero_cons, hd]
    simp only [List.take_succ_cons, List.take_zero, Nat.add_one_sub_one, pedacosAux_succ_cons]
    congr 2
    omega
  have h3 : ¬ ((0xD800 ≤ r ∧ r ≤ 0xDFFF) ∨ 0x10FFFF < r) := by omega
  by_cases h4 : r < 0x10000
  · have e : encodeRune r = [UInt8.ofNat (0xE0 + r / 4096), UInt8.ofNat (0x80 + r / 64 % 64),
        UInt8.ofNat (0x80 + r % 64)] := by
      simp only [encodeRune, if_neg h1, if_neg h2, if_neg h3, if_pos h4]
    have t0 : (UInt8.ofNat (0xE0 + r / 4096)).toNat = 0xE0 + r / 4096 :=
      toNat_ofNat_lt (by omega)
    have t1 : (UInt8.ofNat (0x80 + r / 64 % 64)).toNat = 0x80 + r / 64 % 64 :=
      toNat_ofNat_lt (by omega)
    have t2 : (UInt8.ofNat (0x80 + r % 64)).toNat = 0x80 + r % 64 := toNat_ofNat_lt (by omega)
    have hd := decodeRune_tres _ _ _ resto (by rw [t0]; omega) (by rw [t1]; omega)
      (by rw [t0, t1]; omega) (by rw [t0, t1]; omega) (by rw [t2]; omega)
    rw [t0, t1, t2] at hd
    rw [e]
    simp only [List.cons_append, List.nil_append]
    rw [pedacosAux_zero_cons, hd]
    simp only [List.take_succ_cons, List.take_zero, Nat.add_one_sub_one, pedacosAux_succ_cons]
    congr 2
    omega
  · have e : encodeRune r = [UInt8.ofNat (0xF0 + r / 262144), UInt8.ofNat (0x80 + r / 4096 % 64),
        UInt8.ofNat (0x80 + r / 64 % 64), UInt8.ofNat (0x80 + r % 64)] := by
      simp only [encodeRune, if_neg h1, if_neg h2, if_neg h3, if_neg h4]
    have t0 : (UInt8.ofNat (0xF0 + r / 262144)).toNat = 0xF0 + r / 262144 :=
      toNat_ofNat_lt (by omega)
    have t1 : (UInt8.ofNat (0x80 + r / 4096 % 64)).toNat = 0x80 + r / 4096 % 64 :=
      toNat_ofNat_lt (by omega)
    have t2 : (UInt8.ofNat (0x80 + r / 64 % 64)).toNat = 0x80 + r / 64 % 64 :=
      toNat_ofNat_lt (by omega)
    have t3 : (UInt8.ofNat (0x80 + r % 64)).toNat = 0x80 + r % 64 := toNat_ofNat_lt (by omega)
    have hd := decodeRune_quatro _ _ _ _ resto (by rw [t0]; omega) (by rw [t1]; omega)
      (by rw [t0, t1]; omega) (by rw [t0, t1]; omega) (by rw [t2]; omega) (by rw [t3]; omega)
    rw [t0, t1, t2, t3] at hd
    rw [e]
    simp only [List.cons_append, List.nil_append]
    rw [pedacosAux_zero_cons, hd]
    simp only [List.take_succ_cons, List.take_zero, Nat.add_one_sub_one, pedacosAux_succ_cons]
    congr 2
    omega

theorem tabelaNd_valida : ∀ p ∈ tabelaNd, p.2 < 0xD800 ∨ (0xE000 ≤ p.1 ∧ p.2 ≤ 0x10FFFF) := by
  decide

/-- Every rune `unicode.IsDigit` accepts can be encoded. -/
theorem unicodeIsDigit_valido (r : Nat) (h : unicodeIsDigit r = true) : runeValido r := by
  unfold unicodeIsDigit at h
  unfold runeValido
  split_ifs at h with h1
  · omega
  · rw [List.any_eq_true] at h
    obtain ⟨p, hp, hr⟩ := h
    have hv := tabelaNd_valida p hp
    simp only [Bool.and_eq_true, decide_eq_true_eq] at hr
    omega

theorem pedacos_flatMap_encodeRune (ds : List Nat) (h : ∀ r ∈ ds, runeValido r) :
    pedacos (ds.flatMap encodeRune) = ds.map fun r => (r, encodeRune r) := by
  induction ds with
  | nil => rfl
  | cons r rs ih =>
    have h1 : pedacos ((r :: rs).flatMap encodeRune)
        = (r, encodeRune r) :: pedacos (rs.flatMap encodeRune) := by
      rw [List.flatMap_cons]
      exact pedacosAux_encodeRune r (h r (List.mem_cons_self r rs)) _
    rw [h1, ih (fun x hx => h x (List.mem_cons_of_mem r hx)), List.map_cons]

theorem runes_flatMap_encodeRune (ds : List Nat) (h : ∀ r ∈ ds, runeValido r) :
    runes (ds.flatMap encodeRune) = ds := by
  rw [runes, pedacos_flatMap_encodeRune ds h, List.map_map]
  exact List.map_id ds

/-- The runes of a normalized string are the digit runes of the original. -/
theorem runes_limparCaracteresCpfCnpj (s : GoString) :
    runes (limparCaracteresCpfCnpj s) = (runes s).filter unicodeIsDigit := by
  apply runes_flatMap_encodeRune
  intro r hr
  exact unicodeIsDigit_valido r (List.mem_filter.mp hr).2

/-! ## What the patterns admit -/

namespace Regexp

theorem unicodeIsDigit_ascii (c : Nat) (h : c < 0x80) :
    unicodeIsDigit c = true ↔ 0x30 ≤ c ∧ c ≤ 0x39 := by
  unfold unicodeIsDigit
  rw [if_pos (by omega)]
  simp

/-- A remainder is what is left after a matched prefix of ASCII runes whose
number of digits lies between the two bounds. -/
theorem restos_spec (re : Regexp) (ha : soAscii re = true) :
    ∀ s resto, resto ∈ restos re s → ∃ pre, s = pre ++ resto ∧ (∀ c ∈ pre, c < 0x80) ∧
      minDigitos re ≤ (pre.filter unicodeIsDigit).length ∧
      (pre.filter unicodeIsDigit).length ≤ maxDigitos re := by
  induction re with
  | vazio =>
    intro s resto h
    simp only [restos, List.mem_singleton] at h
    exact ⟨[], by simp [h], by simp, by simp [minDigitos], by simp⟩
  | faixa lo hi =>
    intro s resto h
    simp only [soAscii, decide_eq_true_eq] at ha
    cases s with
    | nil => simp [restos] at h
    | cons c t =>
      simp only [restos] at h
      split_ifs at h with hc
      · simp only [List.mem_singleton] at h
        subst h
        have hc80 : c < 0x80 := by omega
        refine ⟨[c], rfl, by simpa using hc80, ?_, ?_⟩
        · simp only [minDigitos]
          split_ifs with hd
          · have : unicodeIsDigit c = true := (unicodeIsDigit_ascii c hc80).2 (by omega)
            simp [List.filter, this]
          · omega
        · simp only [maxDigitos]
          split_ifs with hd
          · have : ¬ unicodeIsDigit c = true := fun hx => by
              have := (unicodeIsDigit_ascii c hc80).1 hx
              omega
            simp [List.filter, this]
          · exact List.length_filter_le _ _
      · simp at h
  | seq a b iha ihb =>
    intro s resto h
    simp only [soAscii, Bool.and_eq_true] at ha
    simp only [restos, List.mem_flatMap] at h
    obtain ⟨meio, hm, hr⟩ := h
    obtain ⟨pa, hsa, hca, hmina, hmaxa⟩ := iha ha.1 s meio hm
    obtain ⟨pb, hsb, hcb, hminb, hmaxb⟩ := ihb ha.2 meio resto hr
    refine ⟨pa ++ pb, by rw [hsa, hsb, List.append_assoc], ?_, ?_, ?_⟩
    · intro c hc
      rcases List.mem_append.mp hc with h1 | h1
      · exact hca c h1
      · exact hcb c h1
    · simp only [minDigitos, List.filter_append, List.length_append]
      omega
    · simp only [maxDigitos, List.filter_append, List.length_append]
      omega
  | alt a b iha ihb =>
    intro s resto h
    simp only [soAscii, Bool.and_eq_true] at ha
    simp only [restos, List.mem_append] at h
    rcases h with h | h
    · obtain ⟨pa, hsa, hca, hmina, hmaxa⟩ := iha ha.1 s resto h
      refine ⟨pa, hsa, hca, ?_, ?_⟩
      · simp only [minDigitos]; omega
      · simp only [maxDigitos]; omega
    · obtain ⟨pb, hsb, hcb, hminb, hmaxb⟩ := ihb ha.2 s resto h
      refine ⟨pb, hsb, hcb, ?_, ?_⟩
      · simp only [minDigitos]; omega
      · simp only [maxDigitos]; omega

/-- A text the anchored pattern matches is made of ASCII runes and its number
of digits lies between the two bounds. -/
theorem matchString_spec (re : Regexp) (ha : soAscii re = true) (s : GoString)
    (h : matchString re s = true) :
    (∀ c ∈ runes s, c < 0x80) ∧ minDigitos re ≤ ((runes s).filter unicodeIsDigit).length ∧
      ((runes s).filter unicodeIsDigit).length ≤ maxDigitos re := by
  unfold matchString at h
  rw [List.any_eq_true] at h
  obtain ⟨resto, hr, he⟩ := h
  have hnil : resto = [] := List.isEmpty_iff.mp he
  subst hnil
  obtain ⟨pre, hs, hc, hmin, hmax⟩ := restos_spec re ha (runes s) [] hr
  rw [List.append_nil] at hs
  rw [hs]
  exact ⟨hc, hmin, hmax⟩

end Regexp

theorem encodeRune_ascii (r : Nat) (h : r < 0x80) : encodeRune r = [UInt8.ofNat r] := by
  simp [encodeRune, h]

theorem length_flatMap_encodeRune_ascii (ds : List Nat) (h : ∀ r ∈ ds, r < 0x80) :
    (ds.flatMap encodeRune).length = ds.length := by
  induction ds with
  | nil => rfl
  | cons r rs ih =>
    rw [List.flatMap_cons, List.length_append, encodeRune_ascii r (h r (List.mem_cons_self r rs)),
      ih (fun x hx => h x (List.mem_cons_of_mem r hx))]
    simp [Nat.add_comm]

/-- A string of ASCII runes normalizes to as many bytes as it has digits. -/
theorem length_limparCaracteresCpfCnpj_ascii (s : GoString) (h : ∀ r ∈ runes s, r < 0x80) :
    (limparCaracteresCpfCnpj s).length = ((runes s).filter unicodeIsDigit).length := by
  unfold limparCaracteresCpfCnpj
  apply length_flatMap_encodeRune_ascii
  intro r hr
  exact h r (List.mem_filter.mp hr).1

/-- A string of ASCII bytes is read byte by byte. -/
theorem pedacos_of_ascii (s : GoString) (h : ∀ b ∈ s, b.toNat < 0x80) :
    pedacos s = s.map fun b => (b.toNat, [b]) := by
  induction s with
  | nil => rfl
  | cons b bs ih =>
    have h1 : pedacos (b :: bs) = (b.toNat, [b]) :: pedacos bs :=
      pedacosAux_ascii b bs (h b (List.mem_cons_self b bs))
    rw [h1, ih (fun x hx => h x (List.mem_cons_of_mem b hx)), List.map_cons]

/-- A string of ASCII digits is its own normal form. -/
theorem limparCaracteresCpfCnpj_digitos (s : GoString)
    (h : ∀ b ∈ s, 0x30 ≤ b.toNat ∧ b.toNat ≤ 0x39) : limparCaracteresCpfCnpj s = s := by
  have hp := pedacos_of_ascii s (fun b hb => by have := h b hb; omega)
  unfold limparCaracteresCpfCnpj runes
  rw [hp, List.map_map]
  clear hp
  induction s with
  | nil => rfl
  | cons b bs ih =>
    have hb := h b (List.mem_cons_self b bs)
    have hd : unicodeIsDigit b.toNat = true :=
      (Regexp.unicodeIsDigit_ascii b.toNat (by omega)).2 hb
    simp only [List.map_cons, Function.comp_apply, List.filter_cons, hd, if_true,
      List.flatMap_cons]
    rw [ih (fun x hx => h x (List.mem_cons_of_mem b hx)), encodeRune_ascii _ (by omega),
      ofNat_toNat]
    rfl

theorem CPFRegexp_resumo :
    CPFRegexp.soAscii = true ∧ CPFRegexp.minDigitos = 11 ∧ CPFRegexp.maxDigitos = 11 := by
  decide

theorem CNPJRegexp_resumo :
    CNPJRegexp.soAscii = true ∧ CNPJRegexp.minDigitos = 14 ∧ CNPJRegexp.maxDigitos = 14 := by
  decide

/-- A string `CPFRegexp` matches has exactly 11 digits, and its normal form
11 bytes. -/
theorem CPFRegexp_digitos (s : GoString) (h : CPFRegexp.matchString s = true) :
    ((runes s).filter unicodeIsDigit).length = 11 ∧ (limparCaracteresCpfCnpj s).length = 11 := by
  obtain ⟨ha, hmin, hmax⟩ := CPFRegexp_resumo
  obtain ⟨hc, h1, h2⟩ := Regexp.matchString_spec CPFRegexp ha s h
  rw [length_limparCaracteresCpfCnpj_ascii s hc]
  omega

/-- A string `CNPJRegexp` matches has exactly 14 digits, and its normal form
14 bytes. -/
theorem CNPJRegexp_digitos (s : GoString) (h : CNPJRegexp.matchString s = true) :
    ((runes s).filter unicodeIsDigit).length = 14 ∧ (limparCaracteresCpfCnpj s).length = 14 := by
  obtain ⟨ha, hmin, hmax⟩ := CNPJRegexp_resumo
  obtain ⟨hc, h1, h2⟩ := Regexp.matchString_spec CNPJRegexp ha s h
  rw [length_limparCaracteresCpfCnpj_ascii s hc]
  omega

/-- The comparison `aDocumento == documento + digitoVerificador` when
`documento` is the first `n` bytes of `aDocumento`. -/
theorem comparacao_corpo (doc dv : GoString) (n : Nat) :
    (doc == doc.take n ++ dv) = decide (doc.drop n = dv) := by
  have h : (doc = doc.take n ++ dv) ↔ doc.drop n = dv := by
    constructor
    · intro h
      have h2 : doc.take n ++ doc.drop n = doc.take n ++ dv := by
        rw [List.take_append_drop]; exact h
      exact List.append_cancel_left h2
    · intro h
      rw [← h, List.take_append_drop]
  by_cases hd : doc.drop n = dv
  · rw [decide_eq_true hd]
    exact beq_iff_eq.mpr (h.2 hd)
  · rw [decide_eq_false hd]
    exact beq_eq_false_iff_ne.mpr (fun hx => hd (h.1 hx))

/-! ## The normalizer -/

/-- C4: the normalizer `limparCaracteresCpfCnpj` is idempotent: normalizing a
normalized string leaves it unchanged, for every string. -/
theorem limparCaracteresCpfCnpj_idempotente (s : GoString) :
    limparCaracteresCpfCnpj (limparCaracteresCpfCnpj s) = limparCaracteresCpfCnpj s := by
  have h := runes_limparCaracteresCpfCnpj s
  unfold limparCaracteresCpfCnpj at h ⊢
  rw [h, List.filter_filter]
  simp

/-! ## The validator on the claimed samples -/

/-- C1: on the valid CPF sample "529.982.247-25" the validator `validarCPF`
returns false (it would have to return true). -/
theorem validarCPF_amostra_valida : validarCPF (lit "529.982.247-25") = .ok false := by
  decide

/-- C2, as stated, fails: "529.982.247-26" matches `CPFRegexp`, has 11 digits
and its last digit is the check digit `calcularDigitoVerificador` computes
over the first 10 digits with initial weight 10, yet `validarCPF` returns
false. -/
theorem validarCPF_peso_dez_contraexemplo :
    CPFRegexp.matchString (lit "529.982.247-26") = true ∧
    limparCaracteresCpfCnpj (lit "529.982.247-26") = lit "52998224726" ∧
    calcularDigitoVerificador (lit "5299822472") 10 = lit "6" ∧
    validarCPF (lit "529.982.247-26") = .ok false := by
  decide

/-- C2, amended: for every string `s` that `CPFRegexp` matches, the normal
form of `s` has 11 bytes and the routine `ehCpfOuCnpj`, given body length 10
and position `p`, returns true exactly when the last digit of `s` is the
check digit `calcularDigitoVerificador` computes over the first 10 digits with
initial weight `p + 1`. -/
theorem ehCpfOuCnpj_corpo_dez (s : GoString) (p : Int)
    (h : CPFRegexp.matchString s = true) :
    (limparCaracteresCpfCnpj s).length = 11 ∧
    ehCpfOuCnpj s CPFRegexp 10 p = .ok (decide ((limparCaracteresCpfCnpj s).drop 10 =
      calcularDigitoVerificador ((limparCaracteresCpfCnpj s).take 10) (wrapInt (p + 1)))) := by
  have hl := (CPFRegexp_digitos s h).2
  refine ⟨hl, ?_⟩
  unfold ehCpfOuCnpj
  simp only [h, Bool.not_true, Bool.false_eq_true, if_false]
  rw [if_neg (by omega), comparacao_corpo]

/-- C2, amended, at "529.982.247-25" with `p = 10` (weight 11): the routine
with body length 10 returns true. -/
theorem ehCpfOuCnpj_corpo_dez_amostra :
    CPFRegexp.matchString (lit "529.982.247-25") = true ∧
    ehCpfOuCnpj (lit "529.982.247-25") CPFRegexp 10 10 = .ok true :=
  ⟨by decide, (ehCpfOuCnpj_corpo_dez (lit "529.982.247-25") 10 (by decide)).2.trans (by decide)⟩

/-- C3, as stated, fails: "11222333000182" is 14 ASCII digits, matches
`CNPJRegexp` and ends in the check digit `calcularDigitoVerificador` computes
for its first 13 digits with initial weight 5, yet `validarCNPJ` returns
false. -/
theorem validarCNPJ_peso_cinco_contraexemplo :
    CNPJRegexp.matchString (lit "11222333000182") = true ∧
    (lit "11222333000182").length = 14 ∧
    (lit "11222333000182").drop 13 =
      calcularDigitoVerificador ((lit "11222333000182").take 13) 5 ∧
    validarCNPJ (lit "11222333000182") = .ok false := by
  decide

/-- C3, amended: for every 14-byte string of ASCII digits that `CNPJRegexp`
matches and whose last digit is the check digit `calcularDigitoVerificador`
computes for its first 13 digits with initial weight `p + 1`, the routine
`ehCpfOuCnpj`, given body length 13 and position `p`, returns true. -/
theorem ehCpfOuCnpj_corpo_treze (s : GoString) (p : Int) (hlen : s.length = 14)
    (hdig : ∀ b ∈ s, 0x30 ≤ b.toNat ∧ b.toNat ≤ 0x39)
    (hm : CNPJRegexp.matchString s = true)
    (hdv : s.drop 13 = calcularDigitoVerificador (s.take 13) (wrapInt (p + 1))) :
    ehCpfOuCnpj s CNPJRegexp 13 p = .ok true := by
  unfold ehCpfOuCnpj
  simp only [hm, Bool.not_true, Bool.false_eq_true, if_false]
  rw [limparCaracteresCpfCnpj_digitos s hdig, if_neg (by omega), comparacao_corpo,
    decide_eq_true hdv]

/-- C3, amended, at "11222333000181" with `p = 5` (weight 6). -/
theorem ehCpfOuCnpj_corpo_treze_amostra :
    ((lit "11222333000181").length = 14 ∧
     CNPJRegexp.matchString (lit "11222333000181") = true ∧
     (lit "11222333000181").drop 13 =
       calcularDigitoVerificador ((lit "11222333000181").take 13) (wrapInt (5 + 1))) ∧
    ehCpfOuCnpj (lit "11222333000181") CNPJRegexp 13 5 = .ok true :=
  ⟨by decide, ehCpfOuCnpj_corpo_treze (lit "11222333000181") 5 (by decide) (by decide)
    (by decide) (by decide)⟩

/-! ## The record parser -/

/-- C5, as stated, fails: the line of the spec has blanks inside the person
document, so its first eight fields are "123", "456", "789-09", "N", "S",
"NULL", "12,5" and "NULL"; whatever `ParseFloat` answers, no record with
`datUltimaCompra = "1900-01-01"` comes out, and with "S" unparsable the steps
end in the fatal parse error. -/
theorem analisar_linha_do_spec_contraexemplo :
    campos (lit "123 456 789-09  N  S  NULL  12,5  NULL  11.222.333/0001-81  NULL") =
      .ok ⟨lit "123", lit "456", lit "789-09", lit "N", lit "S", lit "NULL", lit "12,5",
        lit "NULL"⟩ ∧
    (¬ ∃ (amb : Ambiente ℚ) (r : Registro ℚ),
      analisar amb (lit "123 456 789-09  N  S  NULL  12,5  NULL  11.222.333/0001-81  NULL")
        = .ok r ∧ r.datUltimaCompra = lit "1900-01-01") ∧
    analisar ambExemplo (lit "123 456 789-09  N  S  NULL  12,5  NULL  11.222.333/0001-81  NULL")
      = .error .erroParseFloat := by
  have hc : campos (lit "123 456 789-09  N  S  NULL  12,5  NULL  11.222.333/0001-81  NULL") =
      .ok ⟨lit "123", lit "456", lit "789-09", lit "N", lit "S", lit "NULL", lit "12,5",
        lit "NULL"⟩ := by decide
  refine ⟨hc, ?_, ?_⟩
  · rintro ⟨amb, r, hr, hd⟩
    simp only [analisar, hc, normalizar] at hr
    have hN : ¬ (lit "N" = lit "NULL") := by decide
    have hN2 : ¬ (lit "N" = lit "1900-01-01") := by decide
    rw [if_neg hN] at hr
    cases h1 : valorNumerico amb (lit "S") with
    | error f => rw [h1] at hr; simp at hr
    | ok v1 =>
      rw [h1] at hr
      cases h2 : valorNumerico amb (lit "NULL") with
      | error f => rw [h2] at hr; simp at hr
      | ok v2 =>
        rw [h2] at hr
        simp only [Except.ok.injEq] at hr
        rw [← hr] at hd
        exact hN2 hd
  · simp only [analisar, hc, normalizar]
    have h1 : valorNumerico ambExemplo (lit "S") = .error .erroParseFloat := by decide
    rw [h1]

/-- C5, amended: with the person document written without blanks, the line
"123.456.789-09  N  S  NULL  12,5  NULL  11.222.333/0001-81  NULL" parses
without error into avgTicketValue = the value `ParseFloat` gives for "12.5",
lastTicketValue = 0, lastPurchaseDate = "1900-01-01",
mostFrequentStoreDocument = "11222333000181" and lastPurchaseStoreDocument =
"NULL". -/
theorem analisar_linha_amostra {F : Type} (amb : Ambiente F) (v : F)
    (h : amb.parseFloat (lit "12.5") = some v) :
    analisar amb (lit "123.456.789-09  N  S  NULL  12,5  NULL  11.222.333/0001-81  NULL") =
      .ok ⟨lit "12345678909", lit "N", lit "S", lit "1900-01-01", v, amb.zero,
        lit "11222333000181", lit "NULL"⟩ := by
  have hc : campos (lit "123.456.789-09  N  S  NULL  12,5  NULL  11.222.333/0001-81  NULL") =
      .ok ⟨lit "123.456.789-09", lit "N", lit "S", lit "NULL", lit "12,5", lit "NULL",
        lit "11.222.333/0001-81", lit "NULL"⟩ := by decide
  have h1 : valorNumerico amb (lit "12,5") = .ok v := by
    have hr : replaceAll (lit "12,5") 0x2C 0x2E = lit "12.5" := by decide
    have hn : lit "12.5" ≠ lit "NULL" := by decide
    simp only [valorNumerico, hr, if_pos hn, h]
  have h2 : valorNumerico amb (lit "NULL") = .ok amb.zero := by
    have hr : replaceAll (lit "NULL") 0x2C 0x2E = lit "NULL" := by decide
    simp only [valorNumerico, hr, ne_eq, not_true_eq_false, if_false]
  have h3 : limparCaracteresCpfCnpj (lit "123.456.789-09") = lit "12345678909" := by decide
  have h4 : documentoLoja (lit "11.222.333/0001-81") = lit "11222333000181" := by decide
  have h5 : documentoLoja (lit "NULL") = lit "NULL" := by decide
  simp only [analisar, hc, normalizar, h1, h2, h3, h4, h5, if_true]

/-- C5, amended, in the sample environment, where "12.5" parses to 25/2. -/
theorem analisar_linha_amostra_exemplo :
    ambExemplo.parseFloat (lit "12.5") = some (25 / 2) ∧
    analisar ambExemplo
        (lit "123.456.789-09  N  S  NULL  12,5  NULL  11.222.333/0001-81  NULL") =
      .ok ⟨lit "12345678909", lit "N", lit "S", lit "1900-01-01", 25 / 2, ambExemplo.zero,
        lit "11222333000181", lit "NULL"⟩ :=
  ⟨rfl, analisar_linha_amostra ambExemplo (25 / 2) rfl⟩

/-! ## The acceptance gate -/

/-- C6, as stated, fails twice.  The person document U+0660 "123456789" has 10
digits but its normal form has 11 bytes, and its row is passed to the sink;
and a line whose person document has 10 ASCII digits but which has only 7
fields aborts the run, so the line after it is never read. -/
theorem porta_dez_digitos_contraexemplo :
    numDigitos (limparCaracteresCpfCnpj (lit "\u0660123456789")) = 10 ∧
    (limparCaracteresCpfCnpj (lit "\u0660123456789")).length = 11 ∧
    (main ambExemplo 0 [cabecalhoExemplo,
        lit "\u0660123456789 N S NULL NULL NULL NULL NULL"]).enviados =
      [⟨lit "\u0660123456789", lit "N", lit "S", lit "1900-01-01", 0, 0, lit "NULL",
        lit "NULL"⟩] ∧
    numDigitos (limparCaracteresCpfCnpj (lit "1234567890")) = 10 ∧
    main ambExemplo 0 [cabecalhoExemplo, lit "1234567890 N S NULL NULL NULL NULL",
        lit "52998224725 N S NULL NULL NULL NULL NULL"] =
      ⟨[], [], 2, .abortado .indiceForaDosLimites⟩ := by
  decide

/-- C6, amended: for every data line that parses and whose normalized person
document is 10 or 12 bytes long (as it is when it consists of 10 or of 12
ASCII digits), nothing is passed to the sink for that line and the loop goes
on with the next line. -/
theorem porta_rejeita {F : Type} (amb : Ambiente F) (texto : GoString) (resto : List GoString)
    (contador lidas : Nat) (est : Estado F) (r : Registro F)
    (hp : analisar amb texto = .ok r)
    (hlen : r.codCpfPessoa.length = 10 ∨ r.codCpfPessoa.length = 12) :
    tratarLinha amb est texto = (est, none) ∧
    percorrer amb (texto :: resto) (contador + 1) est lidas
      = percorrer amb resto (contador + 2) est (lidas + 1) := by
  have ht : tratarLinha amb est texto = (est, none) := by
    simp only [tratarLinha, hp]
    rw [if_neg (by omega)]
  refine ⟨ht, ?_⟩
  simp only [percorrer, ht, gt_iff_lt, Nat.zero_lt_succ, if_true]

/-- C6, amended, on a line whose person document has 10 ASCII digits. -/
theorem porta_rejeita_exemplo :
    (analisar ambExemplo (lit "1234567890 N S NULL NULL NULL NULL NULL") =
      .ok ⟨lit "1234567890", lit "N", lit "S", lit "1900-01-01", 0, 0, lit "NULL", lit "NULL"⟩ ∧
     (lit "1234567890").length = 10) ∧
    (tratarLinha ambExemplo ⟨[], []⟩ (lit "1234567890 N S NULL NULL NULL NULL NULL")
      = (⟨[], []⟩, none) ∧
    percorrer ambExemplo [lit "1234567890 N S NULL NULL NULL NULL NULL"] (0 + 1) ⟨[], []⟩ 1
      = percorrer ambExemplo [] (0 + 2) ⟨[], []⟩ (1 + 1)) :=
  ⟨⟨by decide, by decide⟩,
    porta_rejeita ambExemplo (lit "1234567890 N S NULL NULL NULL NULL NULL") [] 0 1 ⟨[], []⟩
      ⟨lit "1234567890", lit "N", lit "S", lit "1900-01-01", 0, 0, lit "NULL", lit "NULL"⟩
      (by decide) (Or.inl (by decide))⟩

/-- C7: a parsed data record is passed to the sink exactly when its normalized
person document is 11 bytes long, and otherwise nothing is passed; the
checksum plays no part: the line with "111.111.111-11", which `validarCPF`
rejects, is passed to the sink and inserted. -/
theorem porta_so_comprimento :
    (∀ (F : Type) (amb : Ambiente F) (est : Estado F) (texto : GoString) (r : Registro F),
      analisar amb texto = .ok r →
        (r.codCpfPessoa.length = 11 →
          (tratarLinha amb est texto).1.enviados = est.enviados ++ [r]) ∧
        (r.codCpfPessoa.length ≠ 11 →
          (tratarLinha amb est texto).1.enviados = est.enviados ∧
          (tratarLinha amb est texto).1.inseridos = est.inseridos)) ∧
    validarCPF (lit "111.111.111-11") = .ok false ∧
    main ambExemplo 0 [cabecalhoExemplo, lit "111.111.111-11 N S NULL NULL NULL NULL NULL"] =
      ⟨[⟨lit "11111111111", lit "N", lit "S", lit "1900-01-01", 0, 0, lit "NULL", lit "NULL"⟩],
       [⟨lit "11111111111", lit "N", lit "S", lit "1900-01-01", 0, 0, lit "NULL", lit "NULL"⟩],
       2, .concluido⟩ := by
  refine ⟨?_, by decide, by decide⟩
  intro F amb est texto r hp
  constructor
  · intro h11
    simp only [tratarLinha, hp, if_pos h11]
    split_ifs <;> rfl
  · intro h11
    simp only [tratarLinha, hp, if_neg h11, and_self]

/-- C7 at the line with "111.111.111-11": its record, 11 bytes long, is
passed to the sink. -/
theorem porta_so_comprimento_exemplo :
    analisar ambExemplo (lit "111.111.111-11 N S NULL NULL NULL NULL NULL") =
      .ok ⟨lit "11111111111", lit "N", lit "S", lit "1900-01-01", 0, 0, lit "NULL", lit "NULL"⟩ ∧
    (tratarLinha ambExemplo ⟨[], []⟩
        (lit "111.111.111-11 N S NULL NULL NULL NULL NULL")).1.enviados =
      [] ++ [⟨lit "11111111111", lit "N", lit "S", lit "1900-01-01", 0, 0, lit "NULL",
        lit "NULL"⟩] :=
  ⟨by decide, (porta_so_comprimento.1 ℚ ambExemplo ⟨[], []⟩ _ _ (by decide)).1 (by decide)⟩

/-! ## The import guard and the loop -/

/-- The loop from a data line on: when it runs to the end, what it passed to
the sink and inserted are the accepted records of the lines read, in order. -/
theorem percorrer_concluido {F : Type} (amb : Ambiente F) :
    ∀ (linhas : List GoString) (contador : Nat) (est : Estado F) (lidas : Nat),
      (percorrer amb linhas (contador + 1) est lidas).desfecho = .concluido →
      (percorrer amb linhas (contador + 1) est lidas).enviados
        = est.enviados ++ aceitas amb (lit "" :: linhas) ∧
      (percorrer amb linhas (contador + 1) est lidas).inseridos
        = est.inseridos ++ aceitas amb (lit "" :: linhas) ∧
      (percorrer amb linhas (contador + 1) est lidas).lidas = lidas + linhas.length := by
  intro linhas
  induction linhas with
  | nil =>
    intro contador est lidas _
    simp [percorrer, aceitas]
  | cons texto resto ih =>
    intro contador est lidas h
    have hstep : percorrer amb (texto :: resto) (contador + 1) est lidas =
        match tratarLinha amb est texto with
        | (est, some f) => ⟨est.enviados, est.inseridos, lidas + 1, .abortado f⟩
        | (est, none) => percorrer amb resto (contador + 1 + 1) est (lidas + 1) := by
      simp only [percorrer, gt_iff_lt, Nat.zero_lt_succ, if_true]
    rw [hstep] at h ⊢
    simp only [aceitas, List.tail_cons, List.filterMap_cons] at ih ⊢
    unfold tratarLinha at h ⊢
    cases ha : analisar amb texto with
    | error f => simp [ha] at h
    | ok r =>
      simp only [ha] at h ⊢
      by_cases h11 : r.codCpfPessoa.length = 11
      · simp only [if_pos h11] at h ⊢
        by_cases he : amb.exec est.inseridos r = true
        · simp only [if_pos he] at h ⊢
          by_cases hr : amb.rowsAffected r = true
          · simp only [if_pos hr] at h ⊢
            obtain ⟨i1, i2, i3⟩ := ih (contador + 1) _ (lidas + 1) h
            rw [i1, i2, i3]
            simp only [List.append_assoc, List.singleton_append, List.length_cons, true_and]
            omega
          · simp [if_neg hr] at h
        · simp [if_neg he] at h
      · simp only [if_neg h11] at h ⊢
        obtain ⟨i1, i2, i3⟩ := ih (contador + 1) _ (lidas + 1) h
        rw [i1, i2, i3]
        simp only [List.length_cons, true_and]
        omega

/-- C8: the import guard.  With a non-zero row count no source line is read,
nothing is passed to the sink and nothing inserted, and the run ends with
"Dados já inseridos"; with a row count of exactly zero, a run that meets no
fatal error has read every line and has passed to the sink, and inserted, the
record of every line after the header that passes the acceptance gate. -/
theorem main_guarda {F : Type} (amb : Ambiente F) (totalRegistros : Int)
    (linhas : List GoString) :
    (totalRegistros ≠ 0 → main amb totalRegistros linhas = ⟨[], [], 0, .dadosJaInseridos⟩) ∧
    (totalRegistros = 0 → (main amb totalRegistros linhas).desfecho = .concluido →
      (main amb totalRegistros linhas).enviados = aceitas amb linhas ∧
      (main amb totalRegistros linhas).inseridos = aceitas amb linhas ∧
      (main amb totalRegistros linhas).lidas = linhas.length) := by
  constructor
  · intro h
    simp only [main, if_neg h]
  · intro h0 hfim
    simp only [main, if_pos h0] at hfim ⊢
    cases linhas with
    | nil => simp [percorrer, aceitas]
    | cons cab resto =>
      have hstep : percorrer amb (cab :: resto) 0 ⟨[], []⟩ 0
          = percorrer amb resto (0 + 1) ⟨[], []⟩ (0 + 1) := by
        simp only [percorrer, gt_iff_lt, Nat.lt_irrefl, if_false]
      rw [hstep] at hfim ⊢
      obtain ⟨i1, i2, i3⟩ := percorrer_concluido amb resto 0 ⟨[], []⟩ (0 + 1) hfim
      rw [i1, i2, i3]
      simp only [aceitas, List.tail_cons, List.nil_append, List.length_cons, true_and]
      omega

/-- C8 on concrete runs: with 5 rows already present nothing is read; with
none, the run over a header, an 11-digit line and a 10-digit line completes
and passes exactly the record of the 11-digit line to the sink. -/
theorem main_guarda_exemplo :
    main ambExemplo 5 [cabecalhoExemplo, lit "52998224725 N S NULL NULL NULL NULL NULL"]
      = ⟨[], [], 0, .dadosJaInseridos⟩ ∧
    (main ambExemplo 0 [cabecalhoExemplo, lit "52998224725 N S NULL NULL NULL NULL NULL",
        lit "1234567890 N S NULL NULL NULL NULL NULL"]).enviados =
      aceitas ambExemplo [cabecalhoExemplo, lit "52998224725 N S NULL NULL NULL NULL NULL",
        lit "1234567890 N S NULL NULL NULL NULL NULL"] ∧
    aceitas ambExemplo [cabecalhoExemplo, lit "52998224725 N S NULL NULL NULL NULL NULL",
        lit "1234567890 N S NULL NULL NULL NULL NULL"] =
      [⟨lit "52998224725", lit "N", lit "S", lit "1900-01-01", 0, 0, lit "NULL", lit "NULL"⟩] :=
  ⟨(main_guarda ambExemplo 5 _).1 (by decide),
    ((main_guarda ambExemplo 0 _).2 rfl (by decide)).1, by decide⟩

/-- Fewer than eight pieces after the split: the index expression panics. -/
theorem campos_poucos (texto : GoString) (h : (split (dadosLinha texto) 0x3B).length < 8) :
    campos texto = .error .indiceForaDosLimites := by
  unfold campos
  generalize split (dadosLinha texto) 0x3B = l at h
  rcases l with _ | ⟨a0, _ | ⟨a1, _ | ⟨a2, _ | ⟨a3, _ | ⟨a4, _ | ⟨a5, _ | ⟨a6, _ | ⟨a7, t⟩⟩⟩⟩⟩⟩⟩⟩ <;>
    first
    | rfl
    | (simp only [List.length_cons] at h; omega)

/-- C9: for every source of three lines, a header, a data line that parses
into a record whose normalized person document is 11 bytes long (11 ASCII
digits) and a data line with 7 fields, run against an empty destination whose
database accepts the insert: exactly one row is inserted, the record of the
well-formed line, all three lines are read and the run stops at the third
with the index-out-of-range panic, nothing inserted after. -/
theorem main_tres_linhas {F : Type} (amb : Ambiente F) (cabecalho l1 l2 : GoString)
    (r : Registro F) (h1 : analisar amb l1 = .ok r) (hdoc : r.codCpfPessoa.length = 11)
    (hexec : amb.exec [] r = true) (hrows : amb.rowsAffected r = true)
    (h2 : (split (dadosLinha l2) 0x3B).length = 7) :
    main amb 0 [cabecalho, l1, l2] = ⟨[r], [r], 3, .abortado .indiceForaDosLimites⟩ := by
  have hc2 : analisar amb l2 = .error .indiceForaDosLimites := by
    simp only [analisar, campos_poucos l2 (by omega)]
  have t1 : tratarLinha amb ⟨[], []⟩ l1 = (⟨[r], [r]⟩, none) := by
    simp only [tratarLinha, h1, if_pos hdoc, hexec, hrows, if_true, List.nil_append]
  have t2 : tratarLinha amb ⟨[r], [r]⟩ l2 = (⟨[r], [r]⟩, some .indiceForaDosLimites) := by
    simp only [tratarLinha, hc2]
  simp only [main, percorrer, if_true, gt_iff_lt, Nat.lt_irrefl, if_false, Nat.zero_lt_succ,
    Nat.lt_add_one, Nat.zero_add, t1, t2]

/-- C9 on a concrete source in the sample environment. -/
theorem main_tres_linhas_exemplo :
    (analisar ambExemplo (lit "529.982.247-25 N S NULL NULL NULL NULL NULL") =
      .ok ⟨lit "52998224725", lit "N", lit "S", lit "1900-01-01", 0, 0, lit "NULL", lit "NULL"⟩ ∧
     (split (dadosLinha (lit "111.111.111-11 N S NULL NULL NULL NULL")) 0x3B).length = 7) ∧
    main ambExemplo 0 [cabecalhoExemplo, lit "529.982.247-25 N S NULL NULL NULL NULL NULL",
        lit "111.111.111-11 N S NULL NULL NULL NULL"] =
      ⟨[⟨lit "52998224725", lit "N", lit "S", lit "1900-01-01", 0, 0, lit "NULL", lit "NULL"⟩],
       [⟨lit "52998224725", lit "N", lit "S", lit "1900-01-01", 0, 0, lit "NULL", lit "NULL"⟩],
       3, .abortado .indiceForaDosLimites⟩ :=
  ⟨⟨by decide, by decide⟩,
    main_tres_linhas ambExemplo cabecalhoExemplo _ _ _ (by decide) (by decide) rfl rfl
      (by decide)⟩

/-! ## Validator edge cases -/

/-- C10: a string whose number of digits differs from 11, the empty string
included, is rejected by `validarCPF`, and a string whose number of digits
differs from 14 is rejected by `validarCNPJ`; both return false without a
panic. -/
theorem validar_numero_de_digitos (s : GoString) :
    (numDigitos s ≠ 11 → validarCPF s = .ok false) ∧
    (numDigitos s ≠ 14 → validarCNPJ s = .ok false) := by
  constructor
  · intro h
    by_cases hm : CPFRegexp.matchString s = true
    · exact absurd (CPFRegexp_digitos s hm).1 h
    · simp [validarCPF, ehCpfOuCnpj, hm]
  · intro h
    by_cases hm : CNPJRegexp.matchString s = true
    · exact absurd (CNPJRegexp_digitos s hm).1 h
    · simp [validarCNPJ, ehCpfOuCnpj, hm]

/-- C10 on the empty string, on a string too short after stripping and on a
string with the wrong number of digits for either validator. -/
theorem validar_numero_de_digitos_exemplos :
    (numDigitos (lit "") ≠ 11 ∧ validarCPF (lit "") = .ok false) ∧
    (numDigitos (lit "529.982.247-2") ≠ 11 ∧ validarCPF (lit "529.982.247-2") = .ok false) ∧
    (numDigitos (lit "529.982.247-25") ≠ 14 ∧ validarCNPJ (lit "529.982.247-25") = .ok false) :=
  ⟨⟨by decide, (validar_numero_de_digitos (lit "")).1 (by decide)⟩,
   ⟨by decide, (validar_numero_de_digitos (lit "529.982.247-2")).1 (by decide)⟩,
   ⟨by decide, (validar_numero_de_digitos (lit "529.982.247-25")).2 (by decide)⟩⟩

/-! ## The checksum primitive and the validators on every input -/

/-- The decimal rendering of 1 .. 9 is one digit byte. -/
theorem itoa_um_digito (k : Int) (h1 : 1 ≤ k) (h2 : k ≤ 9) :
    ∃ b : UInt8, itoa k = [b] ∧ 0x31 ≤ b.toNat ∧ b.toNat ≤ 0x39 := by
  interval_cases k
  · exact ⟨0x31, by decide, by decide, by decide⟩
  · exact ⟨0x32, by decide, by decide, by decide⟩
  · exact ⟨0x33, by decide, by decide, by decide⟩
  · exact ⟨0x34, by decide, by decide, by decide⟩
  · exact ⟨0x35, by decide, by decide, by decide⟩
  · exact ⟨0x36, by decide, by decide, by decide⟩
  · exact ⟨0x37, by decide, by decide, by decide⟩
  · exact ⟨0x38, by decide, by decide, by decide⟩
  · exact ⟨0x39, by decide, by decide, by decide⟩

/-- The check digit is never the empty string. -/
theorem calcularDigitoVerificador_length (doc : GoString) (w : Int) :
    (calcularDigitoVerificador doc w).length = 1 := by
  unfold calcularDigitoVerificador
  simp only
  split_ifs with h
  · decide
  · have hlt := Int.tmod_lt_of_pos (somaPonderada (runes doc) 0 w) (by decide : (0 : Int) < 11)
    obtain ⟨b, hb, _⟩ := itoa_um_digito (11 - Int.tmod (somaPonderada (runes doc) 0 w) 11)
      (by omega) (by omega)
    rw [hb]
    rfl

/-- With the whole normal form as body the comparison of `ehCpfOuCnpj` fails. -/
theorem ehCpfOuCnpj_corpo_inteiro (s : GoString) (re : Regexp) (n : Nat) (p : Int)
    (h : re.matchString s = true → (limparCaracteresCpfCnpj s).length = n) :
    ehCpfOuCnpj s re n p = .ok false := by
  unfold ehCpfOuCnpj
  by_cases hm : re.matchString s = true
  · have hl := h hm
    simp only [hm, Bool.not_true, Bool.false_eq_true, if_false]
    rw [if_neg (by omega), comparacao_corpo]
    have hd : (limparCaracteresCpfCnpj s).drop n = [] := by
      apply List.drop_eq_nil_of_le
      omega
    have hne : ¬ ((limparCaracteresCpfCnpj s).drop n = calcularDigitoVerificador
        ((limparCaracteresCpfCnpj s).take n) (wrapInt (p + 1))) := by
      intro he
      have hlen := calcularDigitoVerificador_length ((limparCaracteresCpfCnpj s).take n)
        (wrapInt (p + 1))
      rw [← he, hd] at hlen
      simp at hlen
    rw [decide_eq_false hne]
  · simp [hm]

/-- C18: for every input string, `validarCPF` returns false and `validarCNPJ`
returns false: the body is the whole normal form of a matched string, so the
normal form never equals body followed by a check digit. -/
theorem validar_sempre_falso (s : GoString) :
    validarCPF s = .ok false ∧ validarCNPJ s = .ok false :=
  ⟨ehCpfOuCnpj_corpo_inteiro s CPFRegexp 11 10 (fun h => (CPFRegexp_digitos s h).2),
   ehCpfOuCnpj_corpo_inteiro s CNPJRegexp 14 5 (fun h => (CNPJRegexp_digitos s h).2)⟩

/-- C19: the validators never slice out of range: a string `CPFRegexp`
matches normalizes to exactly 11 bytes and a string `CNPJRegexp` matches to
exactly 14, and for every input string `validarCPF` and `validarCNPJ` return a
boolean, never the slice panic. -/
theorem validar_sem_panico (s : GoString) :
    (CPFRegexp.matchString s = true → (limparCaracteresCpfCnpj s).length = 11) ∧
    (CNPJRegexp.matchString s = true → (limparCaracteresCpfCnpj s).length = 14) ∧
    (∃ b, validarCPF s = .ok b) ∧ (∃ b, validarCNPJ s = .ok b) := by
  refine ⟨fun h => (CPFRegexp_digitos s h).2, fun h => (CNPJRegexp_digitos s h).2, ?_, ?_⟩
  · by_cases hm : CPFRegexp.matchString s = true
    · have hl := (CPFRegexp_digitos s hm).2
      unfold validarCPF ehCpfOuCnpj
      simp only [hm, Bool.not_true, Bool.false_eq_true, if_false]
      rw [if_neg (by omega)]
      exact ⟨_, rfl⟩
    · exact ⟨false, by simp [validarCPF, ehCpfOuCnpj, hm]⟩
  · by_cases hm : CNPJRegexp.matchString s = true
    · have hl := (CNPJRegexp_digitos s hm).2
      unfold validarCNPJ ehCpfOuCnpj
      simp only [hm, Bool.not_true, Bool.false_eq_true, if_false]
      rw [if_neg (by omega)]
      exact ⟨_, rfl⟩
    · exact ⟨false, by simp [validarCNPJ, ehCpfOuCnpj, hm]⟩

/-- C19 on matched samples: the normal forms have 11 and 14 bytes. -/
theorem validar_sem_panico_exemplo :
    (CPFRegexp.matchString (lit "529.982.247-25") = true ∧
      (limparCaracteresCpfCnpj (lit "529.982.247-25")).length = 11) ∧
    (CNPJRegexp.matchString (lit "11.222.333/0001-81") = true ∧
      (limparCaracteresCpfCnpj (lit "11.222.333/0001-81")).length = 14) :=
  ⟨⟨by decide, (validar_sem_panico (lit "529.982.247-25")).1 (by decide)⟩,
   ⟨by decide, (validar_sem_panico (lit "11.222.333/0001-81")).2.1 (by decide)⟩⟩

/-- C20: for every input string, digits or not, and every integer initial
weight, `calcularDigitoVerificador` returns exactly one byte, one of
'0' .. '9'. -/
theorem calcularDigitoVerificador_um_digito (doc : GoString) (w : Int) :
    ∃ b : UInt8, calcularDigitoVerificador doc w = [b] ∧ 0x30 ≤ b.toNat ∧ b.toNat ≤ 0x39 := by
  unfold calcularDigitoVerificador
  simp only
  split_ifs with h
  · exact ⟨0x30, by decide, by decide, by decide⟩
  · have hlt := Int.tmod_lt_of_pos (somaPonderada (runes doc) 0 w) (by decide : (0 : Int) < 11)
    obtain ⟨b, hb, h1, h2⟩ := itoa_um_digito (11 - Int.tmod (somaPonderada (runes doc) 0 w) 11)
      (by omega) (by omega)
    exact ⟨b, hb, by omega, h2⟩

/-! ## The checksum primitive against the specification -/

theorem wrapInt_id (x : Int) (h1 : -9223372036854775808 ≤ x) (h2 : x < 9223372036854775808) :
    wrapInt x = x := by
  unfold wrapInt
  omega

theorem proximoPeso_ge (w : Int) : 2 ≤ proximoPeso w := by
  unfold proximoPeso
  split_ifs <;> omega

theorem somaExata_nonneg : ∀ (ds : List Nat) (w : Int), 2 ≤ w → 0 ≤ somaExata ds w := by
  intro ds
  induction ds with
  | nil => intro w _; simp [somaExata]
  | cons dig resto ih =>
    intro w hw
    have h1 := ih (proximoPeso w) (proximoPeso_ge w)
    have h2 : 0 ≤ (dig : Int) * w := Int.mul_nonneg (Int.ofNat_nonneg dig) (by omega)
    simp only [somaExata]
    omega

/-- Without overflow the loop computes the sum of the specification. -/
theorem somaPonderada_exata : ∀ (ds : List Nat) (acc w : Int),
    (∀ x ∈ ds, 0x30 ≤ x ∧ x ≤ 0x39) → 0 ≤ acc → 2 ≤ w → w < 9223372036854775808 →
    acc + somaExata (ds.map fun x => x - 0x30) w < 9223372036854775808 →
    somaPonderada ds acc w = acc + somaExata (ds.map fun x => x - 0x30) w := by
  intro ds
  induction ds with
  | nil => intro acc w _ _ _ _ _; simp [somaPonderada, somaExata]
  | cons x resto ih =>
    intro acc w hd hacc hw hw2 hsum
    have hx := hd x (List.mem_cons_self x resto)
    have hti : toInt x = ((x - 0x30 : Nat) : Int) := by
      unfold toInt
      omega
    simp only [List.map_cons, somaExata] at hsum ⊢
    have hr := somaExata_nonneg (resto.map fun x => x - 0x30) (proximoPeso w) (proximoPeso_ge w)
    have hp : 0 ≤ ((x - 0x30 : Nat) : Int) * w :=
      Int.mul_nonneg (Int.ofNat_nonneg _) (by omega)
    simp only [somaPonderada, hti]
    generalize ((x - 0x30 : Nat) : Int) * w = pr at hsum hp ⊢
    rw [wrapInt_id pr (by omega) (by omega), wrapInt_id (acc + pr) (by omega) (by omega),
      wrapInt_id (w - 1) (by omega) (by omega)]
    have hw3 : (if w - 1 < 2 then (9 : Int) else w - 1) = proximoPeso w := rfl
    rw [hw3, ih (acc + pr) (proximoPeso w) (fun y hy => hd y (List.mem_cons_of_mem x hy))
      (by omega) (proximoPeso_ge w) (by unfold proximoPeso; split_ifs <;> omega) (by omega)]
    omega

/-- C17, as stated, fails in 64-bit arithmetic: for the body "9" and the
initial weight 2^62 the product overflows, `calcularDigitoVerificador` returns
"7" and the formula of the claim gives "8". -/
theorem calcularDigitoVerificador_estouro_contraexemplo :
    (2 : Int) ≤ 4611686018427387904 ∧
    calcularDigitoVerificador (lit "9") 4611686018427387904 = lit "7" ∧
    digitoEsperado (lit "9") 4611686018427387904 = lit "8" := by
  decide

/-- C17, amended: for every body of ASCII digits and every initial weight
`w0` of type int with `w0 ≥ 2` such that the weighted sum does not exceed the
largest 64-bit int, `calcularDigitoVerificador body w0` is "0" when `r < 2`
and the decimal string of `11 - r` otherwise, where `r` is the weighted sum
modulo 11 and the weights go down by one, reset to 9 below 2. -/
theorem calcularDigitoVerificador_spec (body : GoString) (w0 : Int)
    (hdig : ∀ b ∈ body, 0x30 ≤ b.toNat ∧ b.toNat ≤ 0x39) (hw : 2 ≤ w0)
    (hint : w0 < 9223372036854775808)
    (hsum : somaExata (valores body) w0 < 9223372036854775808) :
    calcularDigitoVerificador body w0 = digitoEsperado body w0 := by
  have hrunes : runes body = body.map UInt8.toNat := by
    rw [runes, pedacos_of_ascii body (fun b hb => by have := hdig b hb; omega), List.map_map]
    rfl
  have hval : valores body = (body.map UInt8.toNat).map fun x => x - 0x30 := by
    rw [valores, List.map_map]
    rfl
  have hloop := somaPonderada_exata (body.map UInt8.toNat) 0 w0
    (fun x hx => by
      obtain ⟨b, hb, rfl⟩ := List.mem_map.mp hx
      exact hdig b hb)
    (le_refl 0) hw hint (by rw [← hval]; omega)
  rw [← hval, Int.zero_add] at hloop
  have hnn := somaExata_nonneg (valores body) w0 hw
  unfold calcularDigitoVerificador digitoEsperado
  rw [hrunes, hloop, Int.tmod_eq_emod hnn (by decide)]

/-- C17, amended, on the body "5299822472" with initial weight 11: the
weighted sum is 347 and the digit is "5". -/
theorem calcularDigitoVerificador_spec_exemplo :
    somaExata (valores (lit "5299822472")) 11 = 347 ∧
    calcularDigitoVerificador (lit "5299822472") 11 = digitoEsperado (lit "5299822472") 11 ∧
    digitoEsperado (lit "5299822472") 11 = lit "5" :=
  ⟨by decide, calcularDigitoVerificador_spec (lit "5299822472") 11 (by decide) (by decide)
    (by decide) (by decide), by decide⟩

/-! ## The fields of a parsed record -/

/-- A record that parses is built field by field from the eight fields. -/
theorem analisar_ok {F : Type} (amb : Ambiente F) (texto : GoString) (c : Campos)
    (r : Registro F) (hc : campos texto = .ok c) (hr : analisar amb texto = .ok r) :
    ∃ v1 v2, valorNumerico amb c.vlrTicketMedio = .ok v1 ∧
      valorNumerico amb c.vlrTicketUltimaCompra = .ok v2 ∧
      r = ⟨limparCaracteresCpfCnpj c.codCpfPessoa, c.flgPrivate, c.flgIncompleto,
        if c.datUltimaCompra = lit "NULL" then lit "1900-01-01" else c.datUltimaCompra,
        v1, v2, documentoLoja c.codCnpjLojaMaisFrequente,
        documentoLoja c.codCnpjLojaUltimaCompra⟩ := by
  simp only [analisar, hc, normalizar] at hr
  cases h1 : valorNumerico amb c.vlrTicketMedio with
  | error f => rw [h1] at hr; simp at hr
  | ok v1 =>
    rw [h1] at hr
    cases h2 : valorNumerico amb c.vlrTicketUltimaCompra with
    | error f => rw [h2] at hr; simp at hr
    | ok v2 =>
      rw [h2] at hr
      simp only [Except.ok.injEq] at hr
      exact ⟨v1, v2, rfl, rfl, hr.symm⟩

/-- A store document is "NULL" or made of digit runes only. -/
theorem documentoLoja_forma (t : GoString) :
    documentoLoja t = lit "NULL" ∨ ∀ x ∈ runes (documentoLoja t), unicodeIsDigit x = true := by
  unfold documentoLoja
  by_cases h : t = lit "NULL"
  · left
    simp [h]
  · right
    rw [if_pos h, runes_limparCaracteresCpfCnpj]
    intro x hx
    exact (List.mem_filter.mp hx).2

/-- C12: for every line that parses, each store-document value passed on
(most frequent store, last purchase store) is the field token itself when the
token is "NULL" and its normal form otherwise; so it is either exactly "NULL"
or made of digit runes only. -/
theorem documentos_loja {F : Type} (amb : Ambiente F) (texto : GoString) (c : Campos)
    (r : Registro F) (hc : campos texto = .ok c) (hr : analisar amb texto = .ok r) :
    r.codCnpjLojaMaisFrequente =
      (if c.codCnpjLojaMaisFrequente = lit "NULL" then c.codCnpjLojaMaisFrequente
       else limparCaracteresCpfCnpj c.codCnpjLojaMaisFrequente) ∧
    r.codCnpjLojaUltimaCompra =
      (if c.codCnpjLojaUltimaCompra = lit "NULL" then c.codCnpjLojaUltimaCompra
       else limparCaracteresCpfCnpj c.codCnpjLojaUltimaCompra) ∧
    (r.codCnpjLojaMaisFrequente = lit "NULL" ∨
      ∀ x ∈ runes r.codCnpjLojaMaisFrequente, unicodeIsDigit x = true) ∧
    (r.codCnpjLojaUltimaCompra = lit "NULL" ∨
      ∀ x ∈ runes r.codCnpjLojaUltimaCompra, unicodeIsDigit x = true) := by
  obtain ⟨v1, v2, _, _, rfl⟩ := analisar_ok amb texto c r hc hr
  refine ⟨?_, ?_, documentoLoja_forma _, documentoLoja_forma _⟩
  · simp only [documentoLoja]
    by_cases h : c.codCnpjLojaMaisFrequente = lit "NULL"
    · rw [if_neg (not_not.mpr h), if_pos h]
    · rw [if_pos h, if_neg h]
  · simp only [documentoLoja]
    by_cases h : c.codCnpjLojaUltimaCompra = lit "NULL"
    · rw [if_neg (not_not.mpr h), if_pos h]
    · rw [if_pos h, if_neg h]

/-- C12 on the line with the stores "11.222.333/0001-81" and "NULL". -/
theorem documentos_loja_exemplo :
    (campos (lit "52998224725 N S NULL NULL NULL 11.222.333/0001-81 NULL") =
      .ok ⟨lit "52998224725", lit "N", lit "S", lit "NULL", lit "NULL", lit "NULL",
        lit "11.222.333/0001-81", lit "NULL"⟩ ∧
     analisar ambExemplo (lit "52998224725 N S NULL NULL NULL 11.222.333/0001-81 NULL") =
      .ok ⟨lit "52998224725", lit "N", lit "S", lit "1900-01-01", 0, 0, lit "11222333000181",
        lit "NULL"⟩) ∧
    lit "11222333000181" =
      (if lit "11.222.333/0001-81" = lit "NULL" then lit "11.222.333/0001-81"
       else limparCaracteresCpfCnpj (lit "11.222.333/0001-81")) ∧
    (lit "NULL" : GoString) =
      (if lit "NULL" = lit "NULL" then lit "NULL" else limparCaracteresCpfCnpj (lit "NULL")) :=
  ⟨⟨by decide, by decide⟩,
   (documentos_loja ambExemplo _ _ _
      (by decide : campos (lit "52998224725 N S NULL NULL NULL 11.222.333/0001-81 NULL") =
        .ok ⟨lit "52998224725", lit "N", lit "S", lit "NULL", lit "NULL", lit "NULL",
          lit "11.222.333/0001-81", lit "NULL"⟩)
      (by decide : analisar ambExemplo
          (lit "52998224725 N S NULL NULL NULL 11.222.333/0001-81 NULL") =
        .ok ⟨lit "52998224725", lit "N", lit "S", lit "1900-01-01", 0, 0,
          lit "11222333000181", lit "NULL"⟩)).1,
   by decide⟩

/-- C14: for every line that parses, the date passed on is "1900-01-01" when
the field token is "NULL" and the token itself, unchanged, otherwise. -/
theorem data_ultima_compra {F : Type} (amb : Ambiente F) (texto : GoString) (c : Campos)
    (r : Registro F) (hc : campos texto = .ok c) (hr : analisar amb texto = .ok r) :
    (c.datUltimaCompra = lit "NULL" → r.datUltimaCompra = lit "1900-01-01") ∧
    (c.datUltimaCompra ≠ lit "NULL" → r.datUltimaCompra = c.datUltimaCompra) := by
  obtain ⟨v1, v2, _, _, rfl⟩ := analisar_ok amb texto c r hc hr
  constructor
  · intro h
    simp only [h, if_true]
  · intro h
    simp only [if_neg h]

/-- C14 on a line with the date "NULL" and on a line with "2013-05-27". -/
theorem data_ultima_compra_exemplo :
    (lit "NULL" = lit "NULL" →
      (⟨lit "52998224725", lit "N", lit "S", lit "1900-01-01", 0, 0, lit "NULL",
        lit "NULL"⟩ : Registro ℚ).datUltimaCompra = lit "1900-01-01") ∧
    (lit "2013-05-27" ≠ lit "NULL" →
      (⟨lit "52998224725", lit "N", lit "S", lit "2013-05-27", 0, 0, lit "NULL",
        lit "NULL"⟩ : Registro ℚ).datUltimaCompra = lit "2013-05-27") :=
  ⟨(data_ultima_compra ambExemplo (lit "52998224725 N S NULL NULL NULL NULL NULL")
      ⟨lit "52998224725", lit "N", lit "S", lit "NULL", lit "NULL", lit "NULL", lit "NULL",
        lit "NULL"⟩
      ⟨lit "52998224725", lit "N", lit "S", lit "1900-01-01", 0, 0, lit "NULL", lit "NULL"⟩
      (by decide) (by decide)).1,
   (data_ultima_compra ambExemplo (lit "52998224725 N S 2013-05-27 NULL NULL NULL NULL")
      ⟨lit "52998224725", lit "N", lit "S", lit "2013-05-27", lit "NULL", lit "NULL",
        lit "NULL", lit "NULL"⟩
      ⟨lit "52998224725", lit "N", lit "S", lit "2013-05-27", 0, 0, lit "NULL", lit "NULL"⟩
      (by decide) (by decide)).2⟩

/-- Replacing commas by points yields "NULL" only from "NULL". -/
theorem replaceAll_eq_NULL (t : GoString) :
    replaceAll t 0x2C 0x2E = lit "NULL" ↔ t = lit "NULL" := by
  have hN : lit "NULL" = [0x4E, 0x55, 0x4C, 0x4C] := by decide
  have hb : ∀ (b k : UInt8), k ≠ 0x2E → k ≠ 0x2C →
      ((if b = 0x2C then (0x2E : UInt8) else b) = k ↔ b = k) := by
    intro b k hk hk2
    by_cases h : b = 0x2C
    · rw [if_pos h]
      constructor
      · intro h2
        exact absurd h2.symm hk
      · intro h2
        exact absurd (h2.symm.trans h) hk2
    · rw [if_neg h]
  rw [hN]
  unfold replaceAll
  rcases t with _ | ⟨b0, _ | ⟨b1, _ | ⟨b2, _ | ⟨b3, _ | ⟨b4, t⟩⟩⟩⟩⟩ <;>
    simp only [List.map_cons, List.map_nil, List.cons.injEq, and_true, reduceCtorEq,
      and_false, false_and]
  rw [hb b0 0x4E (by decide) (by decide), hb b1 0x55 (by decide) (by decide),
    hb b2 0x4C (by decide) (by decide), hb b3 0x4C (by decide) (by decide)]

/-- A numeric field that is not "NULL" goes through `ParseFloat`, commas
replaced by points. -/
theorem valorNumerico_nao_NULL {F : Type} (amb : Ambiente F) (t : GoString)
    (h : t ≠ lit "NULL") :
    valorNumerico amb t =
      match amb.parseFloat (replaceAll t 0x2C 0x2E) with
      | some v => .ok v
      | none => .error .erroParseFloat := by
  have h2 : replaceAll t 0x2C 0x2E ≠ lit "NULL" := fun hx => h ((replaceAll_eq_NULL t).1 hx)
  simp only [valorNumerico, if_pos h2]

/-- C13: a numeric field token "NULL" gives the value 0 whatever `ParseFloat`
would answer (no parse is made); any other token gives the result of parsing
it with every ',' replaced by '.'; and when that parse fails for either
numeric field of a data line the run aborts at that line: nothing is passed to
the sink for it or for any later line. -/
theorem campo_numerico {F : Type} (amb : Ambiente F) :
    valorNumerico amb (lit "NULL") = .ok amb.zero ∧
    (∀ t v, t ≠ lit "NULL" → amb.parseFloat (replaceAll t 0x2C 0x2E) = some v →
      valorNumerico amb t = .ok v) ∧
    (∀ (texto : GoString) (depois : List GoString) (contador lidas : Nat) (est : Estado F)
      (c : Campos), campos texto = .ok c →
      ((c.vlrTicketMedio ≠ lit "NULL" ∧
          amb.parseFloat (replaceAll c.vlrTicketMedio 0x2C 0x2E) = none) ∨
       (c.vlrTicketUltimaCompra ≠ lit "NULL" ∧
          amb.parseFloat (replaceAll c.vlrTicketUltimaCompra 0x2C 0x2E) = none)) →
      percorrer amb (texto :: depois) (contador + 1) est lidas =
        ⟨est.enviados, est.inseridos, lidas + 1, .abortado .erroParseFloat⟩) := by
  refine ⟨?_, ?_, ?_⟩
  · have hr : replaceAll (lit "NULL") 0x2C 0x2E = lit "NULL" := by decide
    simp only [valorNumerico, hr, ne_eq, not_true_eq_false, if_false]
  · intro t v ht hv
    rw [valorNumerico_nao_NULL amb t ht, hv]
  · intro texto depois contador lidas est c hc hfalha
    have ha : analisar amb texto = .error .erroParseFloat := by
      simp only [analisar, hc, normalizar]
      rcases hfalha with ⟨h1, h2⟩ | ⟨h1, h2⟩
      · rw [valorNumerico_nao_NULL amb _ h1, h2]
      · have hx : valorNumerico amb c.vlrTicketUltimaCompra = .error .erroParseFloat := by
          rw [valorNumerico_nao_NULL amb _ h1, h2]
        rw [hx]
        cases h3 : valorNumerico amb c.vlrTicketMedio with
        | error f =>
          by_cases h4 : c.vlrTicketMedio = lit "NULL"
          · have hr : replaceAll (lit "NULL") 0x2C 0x2E = lit "NULL" := by decide
            rw [h4] at h3
            simp [valorNumerico, hr] at h3
          · rw [valorNumerico_nao_NULL amb _ h4] at h3
            cases h5 : amb.parseFloat (replaceAll c.vlrTicketMedio 0x2C 0x2E) with
            | none => rw [h5] at h3; simp only [Except.error.injEq] at h3; rw [h3]
            | some v => rw [h5] at h3; simp at h3
        | ok v => rfl
    have ht : tratarLinha amb est texto = (est, some .erroParseFloat) := by
      simp only [tratarLinha, ha]
    simp only [percorrer, ht, gt_iff_lt, Nat.zero_lt_succ, if_true]

/-- C13 in the sample environment: "NULL" is 0, "12,5" is parsed as "12.5",
and a line whose average ticket is the unparsable "S" aborts the run before
the well-formed line after it. -/
theorem campo_numerico_exemplo :
    valorNumerico ambExemplo (lit "NULL") = .ok 0 ∧
    valorNumerico ambExemplo (lit "12,5") = .ok (25 / 2) ∧
    main ambExemplo 0 [cabecalhoExemplo, lit "52998224725 N S NULL S NULL NULL NULL",
        lit "52998224725 N S NULL NULL NULL NULL NULL"] =
      ⟨[], [], 2, .abortado .erroParseFloat⟩ :=
  ⟨(campo_numerico ambExemplo).1,
   (campo_numerico ambExemplo).2.1 (lit "12,5") (25 / 2) (by decide) rfl,
   (campo_numerico ambExemplo).2.2 (lit "52998224725 N S NULL S NULL NULL NULL")
     [lit "52998224725 N S NULL NULL NULL NULL NULL"] 0 1 ⟨[], []⟩
     ⟨lit "52998224725", lit "N", lit "S", lit "NULL", lit "S", lit "NULL", lit "NULL",
       lit "NULL"⟩ (by decide) (Or.inl ⟨by decide, rfl⟩)⟩

/-! ## Malformed rows and the header -/

/-- A run on an empty destination that ends without fatal error has read
every line. -/
theorem main_guarda_aux {F : Type} (amb : Ambiente F) (linhas : List GoString)
    (h : (main amb 0 linhas).desfecho = .concluido) :
    (main amb 0 linhas).lidas = linhas.length := by
  simp only [main, if_true] at h ⊢
  cases linhas with
  | nil => simp [percorrer]
  | cons cab resto =>
    have hstep : percorrer amb (cab :: resto) 0 ⟨[], []⟩ 0
        = percorrer amb resto (0 + 1) ⟨[], []⟩ (0 + 1) := by
      simp only [percorrer, gt_iff_lt, Nat.lt_irrefl, if_false]
    rw [hstep] at h ⊢
    rw [(percorrer_concluido amb resto 0 ⟨[], []⟩ (0 + 1) h).2.2]
    simp only [List.length_cons]
    omega

/-- The loop over two stretches of lines: when the first stretch runs to its
end, the loop goes on over the second from the state reached. -/
theorem percorrer_append {F : Type} (amb : Ambiente F) :
    ∀ (xs ys : List GoString) (contador : Nat) (est : Estado F) (lidas : Nat),
      (percorrer amb xs contador est lidas).desfecho = .concluido →
      percorrer amb (xs ++ ys) contador est lidas =
        percorrer amb ys (contador + xs.length)
          ⟨(percorrer amb xs contador est lidas).enviados,
           (percorrer amb xs contador est lidas).inseridos⟩
          (percorrer amb xs contador est lidas).lidas := by
  intro xs
  induction xs with
  | nil =>
    intro ys contador est lidas _
    simp [percorrer]
  | cons x resto ih =>
    intro ys contador est lidas h
    by_cases hc : contador > 0
    · simp only [List.cons_append, percorrer, if_pos hc] at h ⊢
      cases ht : tratarLinha amb est x with
      | mk est2 erro =>
        cases erro with
        | some f => simp [ht] at h
        | none =>
          simp only [ht] at h ⊢
          have hi := ih ys (contador + 1) est2 (lidas + 1) h
          rw [show contador + (x :: resto).length = contador + 1 + resto.length by
            simp only [List.length_cons]; omega]
          exact hi
    · simp only [List.cons_append, percorrer, if_neg hc] at h ⊢
      have hi := ih ys (contador + 1) est (lidas + 1) h
      rw [show contador + (x :: resto).length = contador + 1 + resto.length by
        simp only [List.length_cons]; omega]
      exact hi

/-- C11: a data line that yields fewer than 8 fields, as a blank line does,
is fatal: when the lines before it ran without fatal error, the run stops at
that line with the index panic, the rows passed to the sink and inserted are
exactly those of the earlier lines, and no later line is read. -/
theorem main_linha_malformada {F : Type} (amb : Ambiente F) (cab : GoString)
    (antes : List GoString) (texto : GoString) (depois : List GoString)
    (hcurta : (split (dadosLinha texto) 0x3B).length < 8)
    (hantes : (main amb 0 (cab :: antes)).desfecho = .concluido) :
    (split (dadosLinha (lit "")) 0x3B).length < 8 ∧
    main amb 0 (cab :: antes ++ texto :: depois) =
      ⟨(main amb 0 (cab :: antes)).enviados, (main amb 0 (cab :: antes)).inseridos,
        antes.length + 2, .abortado .indiceForaDosLimites⟩ := by
  refine ⟨by decide, ?_⟩
  have hl := ((main_guarda_aux amb (cab :: antes)) hantes)
  simp only [main, if_true] at hantes hl ⊢
  rw [show cab :: antes ++ texto :: depois = (cab :: antes) ++ (texto :: depois) from rfl,
    percorrer_append amb (cab :: antes) (texto :: depois) 0 ⟨[], []⟩ 0 hantes]
  have ha : analisar amb texto = .error .indiceForaDosLimites := by
    simp only [analisar, campos_poucos texto hcurta]
  generalize percorrer amb (cab :: antes) 0 ⟨[], []⟩ 0 = res at hl hantes ⊢
  have ht : tratarLinha amb ⟨res.enviados, res.inseridos⟩ texto =
      (⟨res.enviados, res.inseridos⟩, some .indiceForaDosLimites) := by
    simp only [tratarLinha, ha]
  rw [show 0 + (cab :: antes).length = antes.length + 1 by simp]
  simp only [percorrer, ht, gt_iff_lt, Nat.zero_lt_succ, if_true, hl, List.length_cons]

/-- C11 on a concrete source: a well-formed line, then a blank line, then
another well-formed line; the first row stays, the run stops at the blank
line. -/
theorem main_linha_malformada_exemplo :
    ((split (dadosLinha (lit "")) 0x3B).length < 8 ∧
     (main ambExemplo 0 [cabecalhoExemplo,
        lit "52998224725 N S NULL NULL NULL NULL NULL"]).desfecho = .concluido) ∧
    main ambExemplo 0 [cabecalhoExemplo, lit "52998224725 N S NULL NULL NULL NULL NULL",
        lit "", lit "11111111111 N S NULL NULL NULL NULL NULL"] =
      ⟨[⟨lit "52998224725", lit "N", lit "S", lit "1900-01-01", 0, 0, lit "NULL", lit "NULL"⟩],
       [⟨lit "52998224725", lit "N", lit "S", lit "1900-01-01", 0, 0, lit "NULL", lit "NULL"⟩],
       3, .abortado .indiceForaDosLimites⟩ :=
  ⟨⟨by decide, by decide⟩,
   (main_linha_malformada ambExemplo cabecalhoExemplo
      [lit "52998224725 N S NULL NULL NULL NULL NULL"] (lit "")
      [lit "11111111111 N S NULL NULL NULL NULL NULL"] (by decide) (by decide)).2.trans
     (by decide)⟩

/-- C15: on an empty destination the first line is never treated as data: a
source of one line ends with nothing passed to the sink and no error; the run
over a source is the data loop over lines 2 onward, started from nothing; and
the outcome does not depend on the content of the first line. -/
theorem main_cabecalho {F : Type} (amb : Ambiente F) (cab : GoString)
    (resto : List GoString) :
    main amb 0 [cab] = ⟨[], [], 1, .concluido⟩ ∧
    main amb 0 (cab :: resto) = percorrer amb resto 1 ⟨[], []⟩ 1 ∧
    ∀ cab2 : GoString, main amb 0 (cab2 :: resto) = main amb 0 (cab :: resto) := by
  refine ⟨?_, ?_, ?_⟩
  · simp only [main, percorrer, if_true, gt_iff_lt, Nat.lt_irrefl, if_false, Nat.zero_add]
  · simp only [main, percorrer, if_true, gt_iff_lt, Nat.lt_irrefl, if_false, Nat.zero_add]
  · intro cab2
    simp only [main, percorrer, if_true, gt_iff_lt, Nat.lt_irrefl, if_false, Nat.zero_add]

/-- C15 on concrete sources: a first line with one field, a first line with
unparsable numeric fields and a first line that would be an acceptable record
all give the run of the sample header: only the row of line 2 is inserted. -/
theorem main_cabecalho_exemplo :
    main ambExemplo 0 [lit "CPF", lit "52998224725 N S NULL NULL NULL NULL NULL"] =
      ⟨[⟨lit "52998224725", lit "N", lit "S", lit "1900-01-01", 0, 0, lit "NULL", lit "NULL"⟩],
       [⟨lit "52998224725", lit "N", lit "S", lit "1900-01-01", 0, 0, lit "NULL", lit "NULL"⟩],
       2, .concluido⟩ ∧
    main ambExemplo 0 [lit "11111111111 N S NULL abc abc NULL NULL",
        lit "52998224725 N S NULL NULL NULL NULL NULL"] =
      main ambExemplo 0 [lit "CPF", lit "52998224725 N S NULL NULL NULL NULL NULL"] ∧
    main ambExemplo 0 [lit "11111111111 N S NULL NULL NULL NULL NULL",
        lit "52998224725 N S NULL NULL NULL NULL NULL"] =
      main ambExemplo 0 [lit "CPF", lit "52998224725 N S NULL NULL NULL NULL NULL"] :=
  ⟨by decide,
   (main_cabecalho ambExemplo (lit "CPF")
      [lit "52998224725 N S NULL NULL NULL NULL NULL"]).2.2 _,
   (main_cabecalho ambExemplo (lit "CPF")
      [lit "52998224725 N S NULL NULL NULL NULL NULL"]).2.2 _⟩

/-! ## The identifier invariant -/

/-- Whatever the loop passes to the sink has an 11-byte person document. -/
theorem percorrer_enviados {F : Type} (amb : Ambiente F) :
    ∀ (linhas : List GoString) (contador : Nat) (est : Estado F) (lidas : Nat),
      (∀ r ∈ est.enviados, r.codCpfPessoa.length = 11) →
      ∀ r ∈ (percorrer amb linhas contador est lidas).enviados, r.codCpfPessoa.length = 11 := by
  intro linhas
  induction linhas with
  | nil =>
    intro contador est lidas h r hr
    exact h r hr
  | cons x resto ih =>
    intro contador est lidas h
    have ht : ∀ r ∈ (tratarLinha amb est x).1.enviados, r.codCpfPessoa.length = 11 := by
      intro r hr
      unfold tratarLinha at hr
      cases ha : analisar amb x with
      | error f =>
        rw [ha] at hr
        exact h r hr
      | ok r0 =>
        rw [ha] at hr
        simp only at hr
        split_ifs at hr with h11 he hrow
        · rcases List.mem_append.mp hr with h1 | h1
          · exact h r h1
          · rw [List.mem_singleton.mp h1]; exact h11
        · rcases List.mem_append.mp hr with h1 | h1
          · exact h r h1
          · rw [List.mem_singleton.mp h1]; exact h11
        · rcases List.mem_append.mp hr with h1 | h1
          · exact h r h1
          · rw [List.mem_singleton.mp h1]; exact h11
        · exact h r hr
    by_cases hc : contador > 0
    · simp only [percorrer, if_pos hc]
      cases hx : tratarLinha amb est x with
      | mk est2 erro =>
        rw [hx] at ht
        cases erro with
        | some f => exact ht
        | none => exact ih (contador + 1) est2 (lidas + 1) ht
    · simp only [percorrer, if_neg hc]
      exact ih (contador + 1) est (lidas + 1) h

/-- C16, as stated, fails: the line whose most frequent store is "123" is
passed to the sink with that store document, which is not "NULL" and whose
normal form, "123" itself, has length 3, neither 11 nor 14. -/
theorem invariante_identificador_contraexemplo :
    (main ambExemplo 0 [cabecalhoExemplo,
        lit "52998224725 N S NULL NULL NULL 123 NULL"]).enviados =
      [⟨lit "52998224725", lit "N", lit "S", lit "1900-01-01", 0, 0, lit "123", lit "NULL"⟩] ∧
    lit "123" ≠ lit "NULL" ∧
    limparCaracteresCpfCnpj (lit "123") = lit "123" ∧
    (lit "123").length = 3 := by
  decide

/-- C16, amended: for every run, every record passed to the sink has a person
document of exactly 11 bytes (hence of length 11 or 14). -/
theorem invariante_identificador {F : Type} (amb : Ambiente F) (totalRegistros : Int)
    (linhas : List GoString) (r : Registro F)
    (hr : r ∈ (main amb totalRegistros linhas).enviados) :
    r.codCpfPessoa.length = 11 ∧ (r.codCpfPessoa.length = 11 ∨ r.codCpfPessoa.length = 14) := by
  have h11 : r.codCpfPessoa.length = 11 := by
    unfold main at hr
    split_ifs at hr with h0
    · exact percorrer_enviados amb linhas 0 ⟨[], []⟩ 0 (fun x hx => by simp at hx) r hr
    · simp at hr
  exact ⟨h11, Or.inl h11⟩

/-- C16, amended, on the run of the line above. -/
theorem invariante_identificador_exemplo :
    (⟨lit "52998224725", lit "N", lit "S", lit "1900-01-01", 0, 0, lit "123", lit "NULL"⟩ :
        Registro ℚ) ∈
      (main ambExemplo 0 [cabecalhoExemplo,
        lit "52998224725 N S NULL NULL NULL 123 NULL"]).enviados ∧
    (lit "52998224725").length = 11 :=
  ⟨by decide,
   (invariante_identificador ambExemplo 0
      [cabecalhoExemplo, lit "52998224725 N S NULL NULL NULL 123 NULL"]
      ⟨lit "52998224725", lit "N", lit "S", lit "1900-01-01", 0, 0, lit "123", lit "NULL"⟩
      (by decide)).1⟩

end Neoway
